import Mathlib

/-!
Shallow embedding of the OpenMAX video decode accelerator adapter
(`media/gpu/omx/omx_video_decode_accelerator.cc`) and proofs about its
client-facing state machine and buffer bookkeeping.

Modelling conventions:
* `DCHECK`/`NOTREACHED` assertions are debug-only in Chromium; the embedding
  follows release semantics, where they are no-ops.
* Machine integers that the code keeps in C `int`/`int64` fields (buffer
  counters, bitstream ids, `nTimeStamp`) are modelled as `Int`; sizes are `Nat`.
  No arithmetic in scope approaches overflow.
* Calls into the OMX engine and client callbacks are recorded in an action
  trace.  Where a claim depends on an OMX call's possible failure
  (`OMX_EmptyThisBuffer`, the aggregate failure in `FreeOMXBuffers`), the call
  outcome is an explicit boolean oracle parameter; OMX calls whose failure no
  claim in scope touches (`OMX_SendCommand`, `OMX_FillThisBuffer`,
  `OMX_FreeBuffer` per-buffer, `OMX_UseBuffer`) are modelled as succeeding.
* The engine callback thread only re-posts tasks onto the client thread, so
  each handler (`...Task` method) is modelled as a pure state transformer
  executed atomically, matching the single-threaded client-thread model.
-/

namespace OmxVda

/-- `CurrentStateChange` from the header: the adapter's high-level operation
in progress. `NO_TRANSITION` is the spec's `NONE`. -/
inductive CurrentStateChange where
  | NO_TRANSITION
  | INITIALIZING
  | FLUSHING
  | RESETTING
  | DESTROYING
  | ERRORING
  deriving DecidableEq, Repr

/-- Mirror of the OMX component state kept in `client_state_`.  `Max` is
`OMX_StateMax`, used both before initialization and after shutdown. -/
inductive OMXState where
  | Loaded
  | Idle
  | Executing
  | Pause
  | Invalid
  | Max
  deriving DecidableEq, Repr

/-- `media::VideoDecodeAccelerator::Error` kinds used by the adapter. -/
inductive VDAError where
  | ILLEGAL_STATE
  | INVALID_ARGUMENT
  | UNREADABLE_INPUT
  | PLATFORM_FAILURE
  deriving DecidableEq, Repr

/-- The `SharedMemoryAndId` pair stored in an input buffer header's
`pAppPrivate` while the buffer is at the component: the mapped shared-memory
region (identity elided) and the client's bitstream buffer id. -/
structure SharedMemoryAndId where
  id : Int
  deriving DecidableEq, Repr

/-- An input `OMX_BUFFERHEADERTYPE`: the fields the adapter reads or writes.
`eos` is the `OMX_BUFFERFLAG_EOS` bit of `nFlags`. -/
structure InputHeader where
  nFilledLen : Nat
  nAllocLen : Nat
  eos : Bool
  nTimeStamp : Int
  pAppPrivate : Option SharedMemoryAndId
  deriving DecidableEq, Repr

/-- A `media::Picture` record attached to an output buffer header: the
client-assigned picture buffer id and the bitstream buffer id slot that is
overwritten on each delivery. -/
structure Picture where
  picture_buffer_id : Int
  bitstream_buffer_id : Int
  deriving DecidableEq, Repr

/-- An output `OMX_BUFFERHEADERTYPE`: the fields the adapter reads or writes.
For real output buffers `pAppPrivate` points at the pre-allocated `Picture`;
for fake output buffers it is null. -/
structure OutputHeader where
  eos : Bool
  nTimeStamp : Int
  pAppPrivate : Option Picture
  deriving DecidableEq, Repr

/-- A `media::BitstreamBuffer` as the adapter consumes it: client id, size,
and whether `SharedMemory::Map` on its handle succeeds (an environment
outcome attached to the buffer). -/
structure BitstreamBuffer where
  id : Int
  size : Nat
  mapOk : Bool
  deriving DecidableEq, Repr

/-- The adapter state touched by the claims: operation state, engine-state
mirror, client-route validity (`client_` weak pointer still valid, i.e.
`client_ptr_factory_` not invalidated), and the buffer populations. -/
structure AdapterState where
  client_valid : Bool
  init_begun : Bool
  client_state : OMXState
  current_state_change : CurrentStateChange
  input_buffer_count : Int
  free_input_buffers : List InputHeader
  input_buffers_at_component : Int
  output_buffers_at_component : Int
  queued_bitstream_buffers : List BitstreamBuffer
  queued_picture_buffer_ids : List Int
  pictures : List (Int × OutputHeader)
  fake_output_buffers : List OutputHeader
  deriving DecidableEq, Repr

/-- Observable actions: OMX engine calls, client notifications, and markers
recording entry into `Decode`/`ReusePictureBuffer` (used to state call-order
properties about the queue drains). -/
inductive Action where
  | decodeCall (b : BitstreamBuffer)
  | reusePicture (id : Int)
  | emptyThisBuffer (h : InputHeader)
  | fillPicture (id : Int)
  | fillFake
  | freeInputBuffer
  | freeOutputBuffer
  | freeHandle
  | sendCommandStateSet (st : OMXState)
  | sendPortEnable
  | sendPortDisable
  | sendFlushInput
  | sendFlushOutput
  | notifyError (e : VDAError)
  | notifyFlushDone
  | notifyResetDone
  | notifyEndOfBitstreamBuffer (id : Int)
  | pictureReady (p : Picture)
  | dismissPictureBuffer (id : Int)
  | notifyInitializationComplete (ok : Bool)
  | providePictureBuffers
  deriving DecidableEq, Repr

/-- `kNumPictureBuffers`. -/
def kNumPictureBuffers : Nat := 8

/-- `CanFillBuffer()`. -/
def CanFillBuffer (s : AdapterState) : Bool :=
  (s.current_state_change ≠ .DESTROYING ∧ s.current_state_change ≠ .ERRORING ∧
   s.current_state_change ≠ .RESETTING) ∧
  (s.client_state = .Idle ∨ s.client_state = .Executing ∨ s.client_state = .Pause)

/-- `BeginTransitionToState`: no-op when already `ERRORING`, otherwise issues
`OMX_SendCommand(OMX_CommandStateSet, new_state)` (modelled as succeeding). -/
def BeginTransitionToState (s : AdapterState) (new_state : OMXState) :
    AdapterState × List Action :=
  if s.current_state_change = .ERRORING then (s, [])
  else (s, [Action.sendCommandStateSet new_state])

/-- `StopOnError`: returns immediately when already `ERRORING`; otherwise
notifies the client once (only if the client route is valid and init had
begun), invalidates the client route, and unless the component is already
`Invalid`/`Max` requests a transition to `OMX_StateInvalid` and enters
`ERRORING`. -/
def StopOnError (s : AdapterState) (e : VDAError) : AdapterState × List Action :=
  if s.current_state_change = .ERRORING then (s, [])
  else
    let notif : List Action :=
      if s.client_valid ∧ s.init_begun then [Action.notifyError e] else []
    let s1 := {s with client_valid := false}
    if s1.client_state = .Invalid ∨ s1.client_state = .Max then (s1, notif)
    else
      ({s1 with current_state_change := .ERRORING},
       notif ++ [Action.sendCommandStateSet .Invalid])

/-- The end-of-stream sentinel `BitstreamBuffer(-1, SharedMemoryHandle(), 0)`
that `Flush()` feeds through `Decode()`. -/
def eosSentinel : BitstreamBuffer := { id := -1, size := 0, mapOk := false }

/-- `Decode(bitstream_buffer)`.  `etbOk` is the outcome of the
`OMX_EmptyThisBuffer` call, if one is made.  The leading `decodeCall` marker
records the invocation itself (it is not an engine action). -/
def Decode (etbOk : Bool) (s : AdapterState) (b : BitstreamBuffer) :
    AdapterState × List Action :=
  let tag := fun (r : AdapterState × List Action) => (r.1, Action.decodeCall b :: r.2)
  tag <|
  if s.current_state_change = .RESETTING ∨ s.current_state_change = .INITIALIZING ∨
     s.queued_bitstream_buffers ≠ [] ∨ s.free_input_buffers = [] then
    ({s with queued_bitstream_buffers := s.queued_bitstream_buffers ++ [b]}, [])
  else if ¬ ((s.current_state_change = .NO_TRANSITION ∨
              s.current_state_change = .FLUSHING) ∧
             (s.client_state = .Idle ∨ s.client_state = .Executing)) then
    StopOnError s .ILLEGAL_STATE
  else
    match s.free_input_buffers with
    | [] => (s, [])
    | omx_buffer :: rest =>
      let s := {s with free_input_buffers := rest}
      if b.id = -1 ∧ b.size = 0 then
        -- Cook up an empty buffer with EOS set and nTimeStamp = -2.
        let omx_buffer := {omx_buffer with
          nFilledLen := 0, nAllocLen := 0, eos := true, nTimeStamp := -2}
        if etbOk then
          ({s with input_buffers_at_component := s.input_buffers_at_component + 1},
           [Action.emptyThisBuffer omx_buffer])
        else
          -- OMX_EmptyThisBuffer failed: the popped buffer is not returned.
          let r := StopOnError s .PLATFORM_FAILURE
          (r.1, Action.emptyThisBuffer omx_buffer :: r.2)
      else if ¬ b.mapOk then
        -- SharedMemory::Map failed: the popped buffer is not returned.
        StopOnError s .UNREADABLE_INPUT
      else
        let omx_buffer := {omx_buffer with
          pAppPrivate := some { id := b.id },
          nFilledLen := b.size, nAllocLen := b.size, eos := false,
          nTimeStamp := b.id}
        if etbOk then
          ({s with input_buffers_at_component := s.input_buffers_at_component + 1},
           [Action.emptyThisBuffer omx_buffer])
        else
          let r := StopOnError s .PLATFORM_FAILURE
          (r.1, Action.emptyThisBuffer omx_buffer :: r.2)

/-- The loop body of `DecodeQueuedBitstreamBuffers`: calls `Decode` on each
buffer in order, threading the state; `oks` supplies one
`OMX_EmptyThisBuffer` outcome per call. -/
def decodeList : List Bool → AdapterState → List BitstreamBuffer →
    AdapterState × List Action
  | _, s, [] => (s, [])
  | oks, s, b :: bs =>
    let r1 := Decode (oks.headD true) s b
    let r2 := decodeList oks.tail r1.1 bs
    (r2.1, r1.2 ++ r2.2)

/-- `DecodeQueuedBitstreamBuffers`: swaps out the queued list, drops it when
`DESTROYING`/`ERRORING`, else re-issues each buffer via `Decode` in order. -/
def DecodeQueuedBitstreamBuffers (oks : List Bool) (s : AdapterState) :
    AdapterState × List Action :=
  let buffers := s.queued_bitstream_buffers
  let s := {s with queued_bitstream_buffers := []}
  if s.current_state_change = .DESTROYING ∨
     s.current_state_change = .ERRORING then (s, [])
  else decodeList oks s buffers

/-- `Flush()`: the preconditions are only `DCHECK`ed (release no-ops);
the operation state is set to `FLUSHING` and the EOS sentinel is fed through
`Decode`. -/
def Flush (etbOk : Bool) (s : AdapterState) : AdapterState × List Action :=
  Decode etbOk {s with current_state_change := .FLUSHING} eosSentinel

/-- `Reset()`: preconditions only `DCHECK`ed; sets `RESETTING` and requests
`OMX_StatePause`. -/
def Reset (s : AdapterState) : AdapterState × List Action :=
  BeginTransitionToState {s with current_state_change := .RESETTING} .Pause

/-- `EmptyBufferDoneTask`: the component returned an input header.  It is
pushed onto `free_input_buffers_` and the at-component counter decremented;
for a non-EOS buffer the `SharedMemoryAndId` binding is read, detached
(`pAppPrivate = NULL` on the shared header, so the queued copy carries no
binding) and deleted, the client (if still routed) is notified of the
bitstream buffer's completion, and the queued bitstream list is drained.
A null binding on a non-EOS buffer would fail the source's `DCHECK`;
it is modelled as returning after the bookkeeping. -/
def EmptyBufferDoneTask (oks : List Bool) (s : AdapterState)
    (buffer : InputHeader) : AdapterState × List Action :=
  if buffer.eos then
    ({s with free_input_buffers := s.free_input_buffers ++ [buffer],
             input_buffers_at_component := s.input_buffers_at_component - 1}, [])
  else
    match buffer.pAppPrivate with
    | none =>
      ({s with free_input_buffers := s.free_input_buffers ++ [buffer],
               input_buffers_at_component := s.input_buffers_at_component - 1}, [])
    | some input_buffer_details =>
      let returned := {buffer with pAppPrivate := none}
      let s1 := {s with
        free_input_buffers := s.free_input_buffers ++ [returned],
        input_buffers_at_component := s.input_buffers_at_component - 1}
      let notif : List Action :=
        if s1.client_valid then
          [Action.notifyEndOfBitstreamBuffer input_buffer_details.id]
        else []
      let r := DecodeQueuedBitstreamBuffers oks s1
      (r.1, notif ++ r.2)

/-- `OnReachedEOSInFlushing`: clears the operation state and notifies the
client (if still routed) that the flush is done. -/
def OnReachedEOSInFlushing (s : AdapterState) : AdapterState × List Action :=
  let s := {s with current_state_change := .NO_TRANSITION}
  (s, if s.client_valid then [Action.notifyFlushDone] else [])

/-- `FillBufferDoneTask`: the component produced (or declared EOS on) an
output header.  Mirrors the source's branch order: decrement the counter,
bail when `DESTROYING`/`ERRORING`, consume fake buffers, handle the EOS
picture (flush completion plus reuse of the underlying picture buffer),
queue the picture id when `RESETTING`, else overwrite the attached
`Picture`'s bitstream id from `nTimeStamp` and deliver it.  The in-place
mutations of the shared header object (EOS bit cleared, `Picture` field
overwritten) are reflected in the delivered values; the `pictures_` map keys
the same header objects and is not separately rewritten. -/
def FillBufferDoneTask (s : AdapterState) (buffer : OutputHeader) :
    AdapterState × List Action :=
  let picture_buffer_id : Int :=
    match buffer.pAppPrivate with
    | some picture => picture.picture_buffer_id
    | none => -1
  let s := {s with output_buffers_at_component := s.output_buffers_at_component - 1}
  if s.current_state_change = .DESTROYING ∨
     s.current_state_change = .ERRORING then (s, [])
  else if s.fake_output_buffers ≠ [] ∧ buffer ∈ s.fake_output_buffers then
    ({s with fake_output_buffers := s.fake_output_buffers.erase buffer},
     [Action.freeOutputBuffer])
  else if buffer.eos then
    let r := OnReachedEOSInFlushing s
    (r.1, r.2 ++ [Action.reusePicture picture_buffer_id])
  else if s.current_state_change = .RESETTING then
    ({s with queued_picture_buffer_ids :=
        s.queued_picture_buffer_ids ++ [picture_buffer_id]}, [])
  else
    match buffer.pAppPrivate with
    | none => (s, [])
    | some picture =>
      let picture := {picture with bitstream_buffer_id := buffer.nTimeStamp}
      (s, if s.client_valid then [Action.pictureReady picture] else [])

/-- `ReusePictureBuffer(id)`: creates a `PictureSyncObject` and starts the
periodic sync poll; the later hand-off is `QueuePictureBuffer` (a separate
client-thread event once the fence signals).  Only the call marker is
observable here. -/
def ReusePictureBuffer (s : AdapterState) (picture_buffer_id : Int) :
    AdapterState × List Action :=
  (s, [Action.reusePicture picture_buffer_id])

/-- `QueuePictureBuffer(id)` (sync gate signalled): queue the id while
`RESETTING`; silently drop it when the component cannot accept a fill;
otherwise look the picture up and `OMX_FillThisBuffer` its header. -/
def QueuePictureBuffer (s : AdapterState) (picture_buffer_id : Int) :
    AdapterState × List Action :=
  if s.current_state_change = .RESETTING then
    ({s with queued_picture_buffer_ids :=
        s.queued_picture_buffer_ids ++ [picture_buffer_id]}, [])
  else if ¬ CanFillBuffer s then (s, [])
  else
    match s.pictures.find? (fun p => p.1 = picture_buffer_id) with
    | none => StopOnError s .INVALID_ARGUMENT
    | some _ =>
      ({s with output_buffers_at_component := s.output_buffers_at_component + 1},
       [Action.fillPicture picture_buffer_id])

/-- `DecodeQueuedBitstreamBuffers` followed by the reuse of every queued
picture id, then the reset-done notification: the body of
`OnReachedExecutingInResetting` after its early-outs. -/
def OnReachedExecutingInResetting (oks : List Bool) (s : AdapterState) :
    AdapterState × List Action :=
  let s := {s with client_state := .Executing,
                   current_state_change := .NO_TRANSITION}
  if ¬ s.client_valid then (s, [])
  else
    let r1 := DecodeQueuedBitstreamBuffers oks s
    let reuses := r1.1.queued_picture_buffer_ids.map Action.reusePicture
    let s2 := {r1.1 with queued_picture_buffer_ids := []}
    (s2, r1.2 ++ reuses ++ [Action.notifyResetDone])

/-- `OnReachedIdleInInitializing`. -/
def OnReachedIdleInInitializing (s : AdapterState) : AdapterState × List Action :=
  BeginTransitionToState {s with client_state := .Idle} .Executing

/-- `OnReachedExecutingInInitializing`: fill every fake output buffer
(`OMX_FillThisBuffer` modelled as succeeding) and notify the client (if
routed) that initialization completed. -/
def OnReachedExecutingInInitializing (s : AdapterState) :
    AdapterState × List Action :=
  let s := {s with client_state := .Executing,
                   current_state_change := .NO_TRANSITION}
  let fills := s.fake_output_buffers.map (fun _ => Action.fillFake)
  let s := {s with output_buffers_at_component :=
    s.output_buffers_at_component + s.fake_output_buffers.length}
  (s, fills ++
      (if s.client_valid then [Action.notifyInitializationComplete true] else []))

/-- `FlushIOPorts`: flush the input port first. -/
def FlushIOPorts (s : AdapterState) : AdapterState × List Action :=
  (s, [Action.sendFlushInput])

/-- `OnReachedPauseInResetting`. -/
def OnReachedPauseInResetting (s : AdapterState) : AdapterState × List Action :=
  FlushIOPorts {s with client_state := .Pause}

/-- `InputPortFlushDone`: flush the output port next. -/
def InputPortFlushDone (s : AdapterState) : AdapterState × List Action :=
  (s, [Action.sendFlushOutput])

/-- `OutputPortFlushDone`: resume Executing. -/
def OutputPortFlushDone (s : AdapterState) : AdapterState × List Action :=
  BeginTransitionToState s .Executing

/-- `ShutdownComponent`: `OMX_FreeHandle`, `client_state_ = OMX_StateMax`,
`OMX_Deinit`, clear `component_handle_`. -/
def ShutdownComponent (s : AdapterState) : AdapterState × List Action :=
  ({s with client_state := .Max}, [Action.freeHandle])

/-- `FreeOMXBuffers`: free every header in `free_input_buffers_`, free every
picture's header and dismiss its id to the client (if routed), free the fake
output buffers, dismiss the queued picture ids (if routed), and clear all
four populations.  `freeOk = false` is the aggregated per-buffer failure,
surfaced as one `StopOnError(PLATFORM_FAILURE)` at the end. -/
def FreeOMXBuffers (freeOk : Bool) (s : AdapterState) :
    AdapterState × List Action :=
  let t : List Action :=
    s.free_input_buffers.map (fun _ => Action.freeInputBuffer) ++
    (s.pictures.flatMap (fun p =>
      Action.freeOutputBuffer ::
        (if s.client_valid then [Action.dismissPictureBuffer p.1] else []))) ++
    s.fake_output_buffers.map (fun _ => Action.freeOutputBuffer) ++
    (if s.client_valid then
       s.queued_picture_buffer_ids.map Action.dismissPictureBuffer
     else [])
  let s1 := {s with free_input_buffers := [], pictures := [],
                    fake_output_buffers := [], queued_picture_buffer_ids := []}
  if freeOk then (s1, t)
  else
    let r := StopOnError s1 .PLATFORM_FAILURE
    (r.1, t ++ r.2)

/-- `OnReachedIdleInDestroying`: request Idle → Loaded, then free all
buffers. -/
def OnReachedIdleInDestroying (freeOk : Bool) (s : AdapterState) :
    AdapterState × List Action :=
  let s := {s with client_state := .Idle}
  let r1 := BeginTransitionToState s .Loaded
  let r2 := FreeOMXBuffers freeOk r1.1
  (r2.1, r1.2 ++ r2.2)

/-- `OnReachedLoadedInDestroying`. -/
def OnReachedLoadedInDestroying (s : AdapterState) : AdapterState × List Action :=
  ShutdownComponent {s with client_state := .Loaded,
                            current_state_change := .NO_TRANSITION}

/-- `OnReachedInvalidInErroring`. -/
def OnReachedInvalidInErroring (freeOk : Bool) (s : AdapterState) :
    AdapterState × List Action :=
  let s := {s with client_state := .Invalid}
  let r1 := FreeOMXBuffers freeOk s
  let r2 := ShutdownComponent r1.1
  (r2.1, r1.2 ++ r2.2)

/-- `Destroy()`: invalidate the client notification route first; when already
`ERRORING`/`DESTROYING` the self-owned teardown continues (no further work
here); when never initialized drop immediately; when `Invalid`/`Loaded` free
the handle directly; otherwise enter `DESTROYING` and request Idle (the
busy-loop keep-alive is a real-time mechanism, out of model). -/
def Destroy (s : AdapterState) : AdapterState × List Action :=
  let s := {s with client_valid := false}
  if s.current_state_change = .ERRORING ∨
     s.current_state_change = .DESTROYING then (s, [])
  else if s.client_state = .Max then (s, [])
  else if s.client_state = .Invalid ∨ s.client_state = .Loaded then
    ShutdownComponent s
  else
    BeginTransitionToState {s with current_state_change := .DESTROYING} .Idle

/-- `AllocateOutputBuffers`: attaches a fresh `Picture` (with the garbage
bitstream buffer id `-1`) to each registered picture's header via
`OMX_UseBuffer` (modelled as succeeding).  Note the source's
`AssignPictureBuffers` registration loop is commented out, so in the current
code this runs over an empty `pictures_` map. -/
def AllocateOutputBuffers (s : AdapterState) : AdapterState :=
  {s with pictures := s.pictures.map (fun p =>
    (p.1, {p.2 with pAppPrivate := some { picture_buffer_id := p.1,
                                          bitstream_buffer_id := -1 }}))}

/-- `AssignPictureBuffers(buffers)`: returns with no effect while
`RESETTING`/`DESTROYING`/`ERRORING`; then requires `CanFillBuffer` and the
requested picture count, allocates the output buffers and re-enables the
output port.  `buffers` carries the supplied picture-buffer ids. -/
def AssignPictureBuffers (s : AdapterState) (buffers : List Int) :
    AdapterState × List Action :=
  if s.current_state_change = .RESETTING ∨
     s.current_state_change = .DESTROYING ∨
     s.current_state_change = .ERRORING then (s, [])
  else if ¬ CanFillBuffer s then StopOnError s .ILLEGAL_STATE
  else if ¬ (buffers.length = kNumPictureBuffers) then
    StopOnError s .INVALID_ARGUMENT
  else
    (AllocateOutputBuffers s, [Action.sendPortEnable])

/-- `OnOutputPortDisabled`: reads the new port definition and asks the client
(if routed) to provide `kNumPictureBuffers` picture buffers. -/
def OnOutputPortDisabled (s : AdapterState) : AdapterState × List Action :=
  (s, if s.client_valid then [Action.providePictureBuffers] else [])

/-- `OnOutputPortEnabled`: while `RESETTING` stash every current picture id
into the queued-pictures list; otherwise require `CanFillBuffer` and fill
every registered output picture (clearing its EOS bit first). -/
def OnOutputPortEnabled (s : AdapterState) : AdapterState × List Action :=
  if s.current_state_change = .RESETTING then
    ({s with queued_picture_buffer_ids :=
        s.queued_picture_buffer_ids ++ s.pictures.map Prod.fst}, [])
  else if ¬ CanFillBuffer s then StopOnError s .ILLEGAL_STATE
  else
    let fills := s.pictures.map (fun p => Action.fillPicture p.1)
    ({s with
        pictures := s.pictures.map (fun p => (p.1, {p.2 with eos := false})),
        output_buffers_at_component :=
          s.output_buffers_at_component + s.pictures.length},
     fills)

/-- `DispatchStateReached`: the `(current_state_change_, reached)` dispatch
table.  Combinations the source marks `NOTREACHED()` are release no-ops. -/
def DispatchStateReached (oks : List Bool) (freeOk : Bool) (s : AdapterState)
    (reached : OMXState) : AdapterState × List Action :=
  match s.current_state_change with
  | .INITIALIZING =>
    match reached with
    | .Idle => OnReachedIdleInInitializing s
    | .Executing => OnReachedExecutingInInitializing s
    | _ => (s, [])
  | .RESETTING =>
    match reached with
    | .Pause => OnReachedPauseInResetting s
    | .Executing => OnReachedExecutingInResetting oks s
    | _ => (s, [])
  | .DESTROYING =>
    match reached with
    | .Pause => (s, [])
    | .Executing => (s, [])
    | .Idle => OnReachedIdleInDestroying freeOk s
    | .Loaded => OnReachedLoadedInDestroying s
    | _ => (s, [])
  | .ERRORING =>
    match reached with
    | .Invalid => OnReachedInvalidInErroring freeOk s
    | _ => (s, [])
  | _ => (s, [])

/-- The `OMX_CommandFlush` completion arm of `EventHandlerCompleteTask`:
ignored while `DESTROYING`/`ERRORING`, else routed by port. -/
def OnFlushCommandComplete (s : AdapterState) (isInput : Bool) :
    AdapterState × List Action :=
  if s.current_state_change = .DESTROYING ∨
     s.current_state_change = .ERRORING then (s, [])
  else if isInput then InputPortFlushDone s
  else OutputPortFlushDone s

/-- The `OMX_EventError` arm of `EventHandlerCompleteTask`. -/
def OnEventError (s : AdapterState) : AdapterState × List Action :=
  if s.current_state_change ≠ .DESTROYING ∧
     s.current_state_change ≠ .ERRORING then
    StopOnError s .PLATFORM_FAILURE
  else (s, [])

/-- The `OMX_EventPortSettingsChanged` arm for the output-port definition
index: kick off the resize by disabling the output port. -/
def OnPortSettingsChanged (s : AdapterState) : AdapterState × List Action :=
  (s, [Action.sendPortDisable])

/-- The `OMX_EventBufferFlag` arm on the output port: a no-op (EOS picture
delivery does the work), including when Destroy interrupted a Flush. -/
def OnBufferFlag (s : AdapterState) : AdapterState × List Action :=
  (s, [])

/-- `AllocateInputBuffers`: registers `input_buffer_count_` zero-copy input
headers (`nFlags = 0`, null `pAppPrivate`) and puts them all in
`free_input_buffers_` (`OMX_UseBuffer` modelled as succeeding). -/
def AllocateInputBuffers (s : AdapterState) : AdapterState :=
  let fresh : InputHeader :=
    { nFilledLen := 0, nAllocLen := 0, eos := false, nTimeStamp := 0,
      pAppPrivate := none }
  {s with free_input_buffers :=
    s.free_input_buffers ++ List.replicate s.input_buffer_count.toNat fresh}

/-! ### Profile validation (`Initialize` front half, `GetSupportedProfiles`) -/

/-- The `media::VideoCodecProfile` values the adapter's `Initialize` can see
in the H264/VP8 ranges. -/
inductive VideoCodecProfile where
  | H264PROFILE_BASELINE
  | H264PROFILE_MAIN
  | H264PROFILE_EXTENDED
  | H264PROFILE_HIGH
  | H264PROFILE_HIGH10PROFILE
  | H264PROFILE_HIGH422PROFILE
  | H264PROFILE_HIGH444PREDICTIVEPROFILE
  | H264PROFILE_SCALABLEBASELINE
  | H264PROFILE_SCALABLEHIGH
  | H264PROFILE_STEREOHIGH
  | H264PROFILE_MULTIVIEWHIGH
  | VP8PROFILE_ANY
  deriving DecidableEq, Repr

/-- Numeric enum values of `media::VideoCodecProfile` (Chromium):
`H264PROFILE_MIN = H264PROFILE_BASELINE = 0` through
`H264PROFILE_MAX = H264PROFILE_MULTIVIEWHIGH = 10`, and
`VP8PROFILE_MIN = VP8PROFILE_MAX = VP8PROFILE_ANY = 11`. -/
def profileCode : VideoCodecProfile → Int
  | .H264PROFILE_BASELINE => 0
  | .H264PROFILE_MAIN => 1
  | .H264PROFILE_EXTENDED => 2
  | .H264PROFILE_HIGH => 3
  | .H264PROFILE_HIGH10PROFILE => 4
  | .H264PROFILE_HIGH422PROFILE => 5
  | .H264PROFILE_HIGH444PREDICTIVEPROFILE => 6
  | .H264PROFILE_SCALABLEBASELINE => 7
  | .H264PROFILE_SCALABLEHIGH => 8
  | .H264PROFILE_STEREOHIGH => 9
  | .H264PROFILE_MULTIVIEWHIGH => 10
  | .VP8PROFILE_ANY => 11

/-- `H264PROFILE_MIN`. -/
def H264PROFILE_MIN : Int := 0

/-- `H264PROFILE_MAX`. -/
def H264PROFILE_MAX : Int := 10

/-- `VP8PROFILE_MIN`. -/
def VP8PROFILE_MIN : Int := 11

/-- `VP8PROFILE_MAX`. -/
def VP8PROFILE_MAX : Int := 11

/-- `OMX_VIDEO_AVCPROFILETYPE` values used by the mapping. -/
inductive OMXAVCProfile where
  | Baseline
  | Main
  | Extended
  | High
  | High10
  | High422
  | High444
  | Max
  deriving DecidableEq, Repr

/-- `MapH264ProfileToOMXAVCProfile`: the scalable/stereo/multiview profiles
have no OMX equivalent and map to `High444` (same resources as High); the
`default:` arm is `NOTREACHED()` followed by `return OMX_VIDEO_AVCProfileMax`
and is unreachable for profiles in the H264 range. -/
def MapH264ProfileToOMXAVCProfile : VideoCodecProfile → OMXAVCProfile
  | .H264PROFILE_BASELINE => .Baseline
  | .H264PROFILE_MAIN => .Main
  | .H264PROFILE_EXTENDED => .Extended
  | .H264PROFILE_HIGH => .High
  | .H264PROFILE_HIGH10PROFILE => .High10
  | .H264PROFILE_HIGH422PROFILE => .High422
  | .H264PROFILE_HIGH444PREDICTIVEPROFILE => .High444
  | .H264PROFILE_SCALABLEBASELINE => .High444
  | .H264PROFILE_SCALABLEHIGH => .High444
  | .H264PROFILE_STEREOHIGH => .High444
  | .H264PROFILE_MULTIVIEWHIGH => .High444
  | .VP8PROFILE_ANY => .Max

/-- Outcome of the profile-validation prefix of `Initialize`. -/
inductive InitProfileOutcome where
  | acceptedH264 (omx : OMXAVCProfile)
  | acceptedVP8
  | invalidArgument
  deriving DecidableEq, Repr

/-- The profile-validation prefix of `Initialize(config, client)`: H264-range
profiles are mapped and rejected with `INVALID_ARGUMENT` only when the
mapping yields `OMX_VIDEO_AVCProfileMax`; VP8-range profiles are accepted;
anything else is `INVALID_ARGUMENT`. -/
def InitializeProfileCheck (profile : VideoCodecProfile) : InitProfileOutcome :=
  if H264PROFILE_MIN ≤ profileCode profile ∧
     profileCode profile ≤ H264PROFILE_MAX then
    let h264_profile := MapH264ProfileToOMXAVCProfile profile
    if h264_profile = .Max then .invalidArgument
    else .acceptedH264 h264_profile
  else if VP8PROFILE_MIN ≤ profileCode profile ∧
          profileCode profile ≤ VP8PROFILE_MAX then
    .acceptedVP8
  else .invalidArgument

/-- One entry of `VideoDecodeAccelerator::SupportedProfiles`. -/
structure SupportedProfile where
  profile : VideoCodecProfile
  min_width : Nat
  min_height : Nat
  max_width : Nat
  max_height : Nat
  encrypted_only : Bool
  deriving DecidableEq, Repr

/-- `kSupportedProfiles`. -/
def kSupportedProfiles : List VideoCodecProfile :=
  [.H264PROFILE_BASELINE, .H264PROFILE_MAIN, .H264PROFILE_HIGH, .VP8PROFILE_ANY]

/-- `GetSupportedProfiles()`: each statically supported profile with
16x16 .. 1920x1080, unencrypted. -/
def GetSupportedProfiles : List SupportedProfile :=
  kSupportedProfiles.map fun p =>
    { profile := p, min_width := 16, min_height := 16,
      max_width := 1920, max_height := 1080, encrypted_only := false }

/-- All profiles with codes in the H264 range (`0..10`). -/
def h264RangeProfiles : List VideoCodecProfile :=
  [.H264PROFILE_BASELINE, .H264PROFILE_MAIN, .H264PROFILE_EXTENDED,
   .H264PROFILE_HIGH, .H264PROFILE_HIGH10PROFILE, .H264PROFILE_HIGH422PROFILE,
   .H264PROFILE_HIGH444PREDICTIVEPROFILE, .H264PROFILE_SCALABLEBASELINE,
   .H264PROFILE_SCALABLEHIGH, .H264PROFILE_STEREOHIGH,
   .H264PROFILE_MULTIVIEWHIGH]

/-! ### Operation sequences -/

/-- One client-thread event: a client API call, an engine callback, or one of
the task-dispatch arms.  `Initialize` is excluded: it happens once, before
any sequence considered here, and is the only place the client notification
route is (re)created. -/
inductive Op where
  | decode (etbOk : Bool) (b : BitstreamBuffer)
  | assignPictureBuffers (buffers : List Int)
  | reusePicture (id : Int)
  | queuePicture (id : Int)
  | flush (etbOk : Bool)
  | reset
  | destroy
  | stopOnError (e : VDAError)
  | emptyBufferDone (oks : List Bool) (h : InputHeader)
  | fillBufferDone (h : OutputHeader)
  | stateReached (oks : List Bool) (freeOk : Bool) (st : OMXState)
  | portDisabled
  | portEnabled
  | flushCmdComplete (isInput : Bool)
  | eventError
  | portSettingsChanged
  | bufferFlag
  deriving DecidableEq, Repr

/-- Executes one event. -/
def step : Op → AdapterState → AdapterState × List Action
  | .decode ok b, s => Decode ok s b
  | .assignPictureBuffers bufs, s => AssignPictureBuffers s bufs
  | .reusePicture id, s => ReusePictureBuffer s id
  | .queuePicture id, s => QueuePictureBuffer s id
  | .flush ok, s => Flush ok s
  | .reset, s => Reset s
  | .destroy, s => Destroy s
  | .stopOnError e, s => StopOnError s e
  | .emptyBufferDone oks h, s => EmptyBufferDoneTask oks s h
  | .fillBufferDone h, s => FillBufferDoneTask s h
  | .stateReached oks freeOk st, s => DispatchStateReached oks freeOk s st
  | .portDisabled, s => OnOutputPortDisabled s
  | .portEnabled, s => OnOutputPortEnabled s
  | .flushCmdComplete isInput, s => OnFlushCommandComplete s isInput
  | .eventError, s => OnEventError s
  | .portSettingsChanged, s => OnPortSettingsChanged s
  | .bufferFlag, s => OnBufferFlag s

/-- Executes a sequence of events, concatenating their traces. -/
def run : List Op → AdapterState → AdapterState × List Action
  | [], s => (s, [])
  | op :: ops, s =>
    let r1 := step op s
    let r2 := run ops r1.1
    (r2.1, r1.2 ++ r2.2)

/-- Whether an action is a client notification (delivered through the
`client_` weak pointer). -/
def Action.isClientNotif : Action → Bool
  | .notifyError _ => true
  | .notifyFlushDone => true
  | .notifyResetDone => true
  | .notifyEndOfBitstreamBuffer _ => true
  | .pictureReady _ => true
  | .dismissPictureBuffer _ => true
  | .notifyInitializationComplete _ => true
  | .providePictureBuffers => true
  | _ => false

/-- The client notifications in a trace. -/
def clientNotifs (t : List Action) : List Action :=
  t.filter Action.isClientNotif

/-- Whether an action is a `NotifyError` delivery. -/
def Action.isNotifyError : Action → Bool
  | .notifyError _ => true
  | _ => false

/-- Number of `NotifyError` deliveries in a trace. -/
def countError (t : List Action) : Nat :=
  (t.filter Action.isNotifyError).length

/-- How many more `NotifyError` deliveries the state still permits. -/
def errBudget (s : AdapterState) : Nat :=
  if s.client_valid then 1 else 0

/-- The `Decode` invocations recorded in a trace, in order. -/
def decodeCalls (t : List Action) : List BitstreamBuffer :=
  t.filterMap fun a =>
    match a with
    | .decodeCall b => some b
    | _ => none

/-! ### Named states used in witnesses and counterexamples -/

/-- A post-initialization steady state: client routed, executing, two free
input buffers, nothing queued. -/
def steadyState : AdapterState :=
  { client_valid := true, init_begun := true, client_state := .Executing,
    current_state_change := .NO_TRANSITION, input_buffer_count := 2,
    free_input_buffers :=
      [{ nFilledLen := 0, nAllocLen := 0, eos := false, nTimeStamp := 0,
         pAppPrivate := none },
       { nFilledLen := 0, nAllocLen := 0, eos := false, nTimeStamp := 0,
         pAppPrivate := none }],
    input_buffers_at_component := 0, output_buffers_at_component := 0,
    queued_bitstream_buffers := [], queued_picture_buffer_ids := [],
    pictures := [], fake_output_buffers := [] }

/-- `steadyState` with the engine still in Idle: `Flush`'s engine-state
precondition is violated here. -/
def flushIdleState : AdapterState :=
  { steadyState with
    client_state := .Idle,
    input_buffer_count := 1,
    free_input_buffers :=
      [{ nFilledLen := 0, nAllocLen := 0, eos := false, nTimeStamp := 0,
         pAppPrivate := none }] }

/-- The header `Decode` cooks up for the EOS sentinel out of
`flushIdleState`'s single free input buffer. -/
def flushEosHeader : InputHeader :=
  { nFilledLen := 0, nAllocLen := 0, eos := true, nTimeStamp := -2,
    pAppPrivate := none }

/-- A non-sentinel bitstream buffer used in witnesses. -/
def testBitstream : BitstreamBuffer := { id := 7, size := 1, mapOk := true }

/-- `steadyState` during a reset. -/
def rstState : AdapterState :=
  {steadyState with current_state_change := .RESETTING}

/-- `steadyState` with the engine paused (not a legal state for `Decode`). -/
def pauseState : AdapterState :=
  {steadyState with client_state := OMXState.Pause}

/-- `flushIdleState` with the engine paused. -/
def flushPauseState : AdapterState :=
  {flushIdleState with client_state := OMXState.Pause}

/-- `rstState` with one queued bitstream buffer and one queued picture id. -/
def rstQueuedState : AdapterState :=
  { rstState with
    queued_bitstream_buffers := [testBitstream],
    queued_picture_buffer_ids := [3] }

/-- `steadyState` after an error stopped it. -/
def erroringState : AdapterState :=
  { steadyState with
    client_valid := false,
    current_state_change := .ERRORING }

/-- An input header carrying a binding for bitstream id 7, as returned by
the component. -/
def testInputHeader : InputHeader :=
  { nFilledLen := 1, nAllocLen := 1, eos := false, nTimeStamp := 7,
    pAppPrivate := some { id := 7 } }

/-- `steadyState` with one input buffer at the component and one free. -/
def ebdState : AdapterState :=
  { steadyState with
    free_input_buffers :=
      [{ nFilledLen := 0, nAllocLen := 0, eos := false, nTimeStamp := 0,
         pAppPrivate := none }],
    input_buffers_at_component := 1 }

/-- `steadyState` before `AllocateInputBuffers` ran: no input headers yet. -/
def emptyBufState : AdapterState :=
  {steadyState with free_input_buffers := []}

/-- The input-buffer conservation invariant (spec invariant 2): while the
engine is in `IDLE`/`EXECUTING`/`PAUSED` and the adapter is not tearing down
(`DESTROYING`/`ERRORING`), the free input headers plus the at-component
counter equal the negotiated input buffer count. -/
def InputBufferInvariant (s : AdapterState) : Prop :=
  (s.client_state = .Idle ∨ s.client_state = .Executing ∨
   s.client_state = .Pause) →
  s.current_state_change ≠ .DESTROYING →
  s.current_state_change ≠ .ERRORING →
  (s.free_input_buffers.length : Int) + s.input_buffers_at_component =
    s.input_buffer_count

/-- The pre-allocated `Picture` of picture buffer 3 (garbage bitstream id). -/
def testPicture : Picture := { picture_buffer_id := 3, bitstream_buffer_id := -1 }

/-- An output header carrying `testPicture`, produced with timestamp 7. -/
def testOutputHeader : OutputHeader :=
  { eos := false, nTimeStamp := 7, pAppPrivate := some testPicture }

/-- Soundness of one transition with respect to client notification
delivery: once the client route is invalidated no notification is ever
emitted and the route stays invalid, and the number of `NotifyError`
deliveries never exceeds what the route validity still permits. -/
def Sane (s : AdapterState) (t : List Action) (s' : AdapterState) : Prop :=
  (s.client_valid = false → clientNotifs t = [] ∧ s'.client_valid = false) ∧
  countError t + errBudget s' ≤ errBudget s

/-- Which events can leave the `ERRORING` operation state: all of them
except the client calls `Flush` and `Reset`, whose (debug-only) precondition
assertions forbid calling them during any transition. -/
def opPreservesErroring : Op → Bool
  | .flush _ => false
  | .reset => false
  | _ => true

/-! ### Lemmas about `StopOnError` -/

theorem StopOnError_trace_sub (s : AdapterState) (e : VDAError) :
    ∀ a ∈ (StopOnError s e).2,
      a = Action.notifyError e ∨ a = Action.sendCommandStateSet .Invalid := by
  unfold StopOnError
  split
  · simp
  · dsimp only
    split
    · split <;> simp_all
    · split <;> simp_all

theorem StopOnError_fields (s : AdapterState) (e : VDAError) :
    (StopOnError s e).1.free_input_buffers = s.free_input_buffers ∧
    (StopOnError s e).1.input_buffers_at_component =
      s.input_buffers_at_component ∧
    (StopOnError s e).1.input_buffer_count = s.input_buffer_count ∧
    (StopOnError s e).1.client_state = s.client_state ∧
    (StopOnError s e).1.queued_bitstream_buffers = s.queued_bitstream_buffers ∧
    (StopOnError s e).1.queued_picture_buffer_ids =
      s.queued_picture_buffer_ids ∧
    (StopOnError s e).1.init_begun = s.init_begun := by
  unfold StopOnError
  split
  · simp
  · dsimp only
    split <;> simp

theorem StopOnError_sets_erroring (s : AdapterState) (e : VDAError)
    (h1 : s.current_state_change ≠ .ERRORING)
    (h2 : ¬(s.client_state = .Invalid ∨ s.client_state = .Max)) :
    (StopOnError s e).1 =
      {s with client_valid := false, current_state_change := .ERRORING} := by
  unfold StopOnError
  rw [if_neg h1]
  dsimp only
  rw [if_neg h2]

theorem StopOnError_erroring_noop (s : AdapterState) (e : VDAError)
    (h : s.current_state_change = .ERRORING) :
    StopOnError s e = (s, []) := by
  unfold StopOnError
  rw [if_pos h]

theorem StopOnError_no_etb (s : AdapterState) (e : VDAError) (h : InputHeader) :
    Action.emptyThisBuffer h ∉ (StopOnError s e).2 := by
  intro hmem
  rcases StopOnError_trace_sub s e _ hmem with h1 | h1 <;> simp at h1

theorem StopOnError_no_decodeCall (s : AdapterState) (e : VDAError)
    (b : BitstreamBuffer) : Action.decodeCall b ∉ (StopOnError s e).2 := by
  intro hmem
  rcases StopOnError_trace_sub s e _ hmem with h1 | h1 <;> simp at h1

theorem StopOnError_notifyError_mem (s : AdapterState) (e e' : VDAError) :
    Action.notifyError e' ∈ (StopOnError s e).2 → e' = e := by
  intro hmem
  rcases StopOnError_trace_sub s e _ hmem with h1 | h1
  · simp at h1
    exact h1
  · simp at h1

/-! ### Branch equations for `Decode` -/

theorem Decode_cond1_eq (ok : Bool) (s : AdapterState) (b : BitstreamBuffer)
    (h : s.current_state_change = .RESETTING ∨
         s.current_state_change = .INITIALIZING ∨
         s.queued_bitstream_buffers ≠ [] ∨ s.free_input_buffers = []) :
    Decode ok s b =
      ({s with queued_bitstream_buffers :=
          s.queued_bitstream_buffers ++ [b]},
       [Action.decodeCall b]) := by
  unfold Decode
  dsimp only
  rw [if_pos h]

theorem Decode_illegal_eq (ok : Bool) (s : AdapterState) (b : BitstreamBuffer)
    (h1 : ¬(s.current_state_change = .RESETTING ∨
            s.current_state_change = .INITIALIZING ∨
            s.queued_bitstream_buffers ≠ [] ∨ s.free_input_buffers = []))
    (h2 : ¬((s.current_state_change = .NO_TRANSITION ∨
             s.current_state_change = .FLUSHING) ∧
            (s.client_state = .Idle ∨ s.client_state = .Executing))) :
    Decode ok s b =
      ((StopOnError s .ILLEGAL_STATE).1,
       Action.decodeCall b :: (StopOnError s .ILLEGAL_STATE).2) := by
  unfold Decode
  dsimp only
  rw [if_neg h1, if_pos h2]

theorem Decode_eos_eq (ok : Bool) (s : AdapterState) (b : BitstreamBuffer)
    (omx : InputHeader) (rest : List InputHeader)
    (h1 : ¬(s.current_state_change = .RESETTING ∨
            s.current_state_change = .INITIALIZING ∨
            s.queued_bitstream_buffers ≠ [] ∨ s.free_input_buffers = []))
    (h2 : (s.current_state_change = .NO_TRANSITION ∨
           s.current_state_change = .FLUSHING) ∧
          (s.client_state = .Idle ∨ s.client_state = .Executing))
    (hfree : s.free_input_buffers = omx :: rest)
    (hsent : b.id = -1 ∧ b.size = 0) :
    Decode ok s b =
      (if ok then
        ({s with free_input_buffers := rest,
                 input_buffers_at_component :=
                   s.input_buffers_at_component + 1},
         [Action.decodeCall b,
          Action.emptyThisBuffer
            {omx with nFilledLen := 0, nAllocLen := 0, eos := true,
                      nTimeStamp := -2}])
      else
        ((StopOnError {s with free_input_buffers := rest}
            .PLATFORM_FAILURE).1,
         Action.decodeCall b ::
           Action.emptyThisBuffer
             {omx with nFilledLen := 0, nAllocLen := 0, eos := true,
                       nTimeStamp := -2} ::
           (StopOnError {s with free_input_buffers := rest}
              .PLATFORM_FAILURE).2)) := by
  unfold Decode
  dsimp only
  rw [if_neg h1, if_neg (not_not.mpr h2), hfree]
  dsimp only
  rw [if_pos hsent]
  cases ok <;> rfl

theorem Decode_mapfail_eq (ok : Bool) (s : AdapterState)
    (b : BitstreamBuffer) (omx : InputHeader) (rest : List InputHeader)
    (h1 : ¬(s.current_state_change = .RESETTING ∨
            s.current_state_change = .INITIALIZING ∨
            s.queued_bitstream_buffers ≠ [] ∨ s.free_input_buffers = []))
    (h2 : (s.current_state_change = .NO_TRANSITION ∨
           s.current_state_change = .FLUSHING) ∧
          (s.client_state = .Idle ∨ s.client_state = .Executing))
    (hfree : s.free_input_buffers = omx :: rest)
    (hsent : ¬(b.id = -1 ∧ b.size = 0)) (hmap : b.mapOk = false) :
    Decode ok s b =
      ((StopOnError {s with free_input_buffers := rest}
          .UNREADABLE_INPUT).1,
       Action.decodeCall b ::
         (StopOnError {s with free_input_buffers := rest}
            .UNREADABLE_INPUT).2) := by
  unfold Decode
  dsimp only
  rw [if_neg h1, if_neg (not_not.mpr h2), hfree]
  dsimp only
  rw [if_neg hsent, if_pos (by simp [hmap])]

theorem Decode_data_eq (ok : Bool) (s : AdapterState) (b : BitstreamBuffer)
    (omx : InputHeader) (rest : List InputHeader)
    (h1 : ¬(s.current_state_change = .RESETTING ∨
            s.current_state_change = .INITIALIZING ∨
            s.queued_bitstream_buffers ≠ [] ∨ s.free_input_buffers = []))
    (h2 : (s.current_state_change = .NO_TRANSITION ∨
           s.current_state_change = .FLUSHING) ∧
          (s.client_state = .Idle ∨ s.client_state = .Executing))
    (hfree : s.free_input_buffers = omx :: rest)
    (hsent : ¬(b.id = -1 ∧ b.size = 0)) (hmap : b.mapOk = true) :
    Decode ok s b =
      (if ok then
        ({s with free_input_buffers := rest,
                 input_buffers_at_component :=
                   s.input_buffers_at_component + 1},
         [Action.decodeCall b,
          Action.emptyThisBuffer
            {omx with pAppPrivate := some { id := b.id },
                      nFilledLen := b.size, nAllocLen := b.size,
                      eos := false, nTimeStamp := b.id}])
      else
        ((StopOnError {s with free_input_buffers := rest}
            .PLATFORM_FAILURE).1,
         Action.decodeCall b ::
           Action.emptyThisBuffer
             {omx with pAppPrivate := some { id := b.id },
                       nFilledLen := b.size, nAllocLen := b.size,
                       eos := false, nTimeStamp := b.id} ::
           (StopOnError {s with free_input_buffers := rest}
              .PLATFORM_FAILURE).2)) := by
  unfold Decode
  dsimp only
  rw [if_neg h1, if_neg (not_not.mpr h2), hfree]
  dsimp only
  rw [if_neg hsent, if_neg (by simp [hmap])]
  cases ok <;> rfl

/-! ### Claim C1 -/

/-- C1 counterexample: with `OperationState = NONE` but `EngineState = IDLE`
(the claim's violation case "EngineState is not EXECUTING"), `Flush` does
not route through `StopOnError(ILLEGAL_STATE)`: it sets the operation state
to `FLUSHING` and feeds the EOS sentinel to the engine, delivering no error
notification and ending in `FLUSHING`, not `ERRORING`. -/
theorem flush_unchecked_counterexample :
    flushIdleState.current_state_change = .NO_TRANSITION ∧
    flushIdleState.client_state = .Idle ∧
    Flush true flushIdleState =
      ({ flushIdleState with
         current_state_change := .FLUSHING,
         free_input_buffers := [],
         input_buffers_at_component := 1 },
       [Action.decodeCall eosSentinel,
        Action.emptyThisBuffer flushEosHeader]) ∧
    flushEosHeader.eos = true ∧
    clientNotifs (Flush true flushIdleState).2 = [] ∧
    (Flush true flushIdleState).1.current_state_change ≠ .ERRORING := by
  decide

/-- C1 amended: `Flush` does not validate its precondition at runtime (it is
only debug-asserted).  For any call with the precondition violated, the
queued-bitstream list empty and a free input available: the operation state
is first set to `FLUSHING` and the EOS sentinel is routed through `Decode`;
when `EngineState` is `IDLE` or `EXECUTING` the EOS buffer is fed to the
engine anyway (no `ILLEGAL_STATE` error, state left `FLUSHING` when the
engine accepts it), and only when `EngineState` is neither `IDLE` nor
`EXECUTING` is the violation routed through `StopOnError(ILLEGAL_STATE)`
with no EOS fed. -/
theorem flush_unchecked_behavior (etbOk : Bool) (s : AdapterState)
    (_hpre : ¬(s.current_state_change = .NO_TRANSITION ∧
              s.client_state = .Executing))
    (hq : s.queued_bitstream_buffers = [])
    (hf : s.free_input_buffers ≠ []) :
    ((s.client_state = .Idle ∨ s.client_state = .Executing) →
      (∃ h, Action.emptyThisBuffer h ∈ (Flush etbOk s).2 ∧ h.eos = true) ∧
      Action.notifyError .ILLEGAL_STATE ∉ (Flush etbOk s).2 ∧
      (etbOk = true →
        (Flush etbOk s).1.current_state_change = .FLUSHING)) ∧
    (¬(s.client_state = .Idle ∨ s.client_state = .Executing) →
      Flush etbOk s =
        ((StopOnError {s with current_state_change := .FLUSHING}
            .ILLEGAL_STATE).1,
         Action.decodeCall eosSentinel ::
           (StopOnError {s with current_state_change := .FLUSHING}
              .ILLEGAL_STATE).2) ∧
      ∀ h, Action.emptyThisBuffer h ∉ (Flush etbOk s).2) := by
  obtain ⟨omx, rest, hfree⟩ := List.exists_cons_of_ne_nil hf
  constructor
  · intro hcs
    cases etbOk
    · have hres : Flush false s =
          ((StopOnError
             {s with current_state_change := .FLUSHING,
                     free_input_buffers := rest} .PLATFORM_FAILURE).1,
           Action.decodeCall eosSentinel ::
             Action.emptyThisBuffer
               {omx with nFilledLen := 0, nAllocLen := 0, eos := true,
                         nTimeStamp := -2} ::
             (StopOnError
               {s with current_state_change := .FLUSHING,
                       free_input_buffers := rest} .PLATFORM_FAILURE).2) := by
        unfold Flush Decode
        dsimp only
        rw [hq, hfree]
        simp_all [eosSentinel]
      rw [hres]
      refine ⟨⟨{omx with nFilledLen := 0, nAllocLen := 0, eos := true,
                         nTimeStamp := -2}, by simp, rfl⟩, ?_, by simp⟩
      intro hmem
      simp only [List.mem_cons] at hmem
      rcases hmem with h1 | h1 | h1
      · simp at h1
      · simp at h1
      · have := StopOnError_notifyError_mem _ _ _ h1
        simp at this
    · have hres : Flush true s =
          ({s with current_state_change := .FLUSHING,
                   free_input_buffers := rest,
                   input_buffers_at_component :=
                     s.input_buffers_at_component + 1},
           [Action.decodeCall eosSentinel,
            Action.emptyThisBuffer
              {omx with nFilledLen := 0, nAllocLen := 0, eos := true,
                        nTimeStamp := -2}]) := by
        unfold Flush Decode
        dsimp only
        rw [hq, hfree]
        simp_all [eosSentinel]
      rw [hres]
      refine ⟨⟨{omx with nFilledLen := 0, nAllocLen := 0, eos := true,
                         nTimeStamp := -2}, by simp, rfl⟩, ?_, fun _ => rfl⟩
      intro hmem
      simp at hmem
  · intro hcs
    have hres : Flush etbOk s =
        ((StopOnError {s with current_state_change := .FLUSHING}
            .ILLEGAL_STATE).1,
         Action.decodeCall eosSentinel ::
           (StopOnError {s with current_state_change := .FLUSHING}
              .ILLEGAL_STATE).2) := by
      unfold Flush Decode
      dsimp only
      rw [hq]
      simp_all
    refine ⟨hres, ?_⟩
    intro h hmem
    rw [hres] at hmem
    simp only [List.mem_cons] at hmem
    rcases hmem with h1 | h1
    · simp at h1
    · exact StopOnError_no_etb _ _ _ h1

/-- Witness for the amended C1 theorem: both branches at concrete states
(`flushIdleState` violates via `EngineState = IDLE`; the `Pause` variant
violates with an engine state that is neither `IDLE` nor `EXECUTING`). -/
theorem flush_unchecked_behavior_witness :
    ((flushIdleState.client_state = .Idle ∨
      flushIdleState.client_state = .Executing) →
      (∃ h, Action.emptyThisBuffer h ∈ (Flush true flushIdleState).2 ∧
            h.eos = true) ∧
      Action.notifyError .ILLEGAL_STATE ∉ (Flush true flushIdleState).2 ∧
      (true = true →
        (Flush true flushIdleState).1.current_state_change = .FLUSHING)) ∧
    ((¬(flushPauseState.client_state = .Idle ∨
        flushPauseState.client_state = .Executing)) →
      Flush true flushPauseState =
        ((StopOnError
            {flushPauseState with current_state_change := .FLUSHING}
            .ILLEGAL_STATE).1,
         Action.decodeCall eosSentinel ::
           (StopOnError
              {flushPauseState with current_state_change := .FLUSHING}
              .ILLEGAL_STATE).2) ∧
      ∀ h, Action.emptyThisBuffer h ∉ (Flush true flushPauseState).2) :=
  ⟨(flush_unchecked_behavior true flushIdleState (by decide) rfl
      (by decide)).1,
   (flush_unchecked_behavior true flushPauseState (by decide) rfl
      (by decide)).2⟩

/-! ### Claim C2 -/

/-- C2: `Decode` enqueues the bitstream buffer and returns without touching
the engine whenever the operation state is `RESETTING` or `INITIALIZING`,
the queued list is non-empty, or no free input buffer exists; otherwise,
when it is not the case that the operation state is `NONE` or `FLUSHING`
with the engine `IDLE` or `EXECUTING`, it fails through
`StopOnError(ILLEGAL_STATE)` and hands no buffer to the engine. -/
theorem decode_queues_or_fails_illegal (ok : Bool) (s : AdapterState)
    (b : BitstreamBuffer) :
    ((s.current_state_change = .RESETTING ∨
      s.current_state_change = .INITIALIZING ∨
      s.queued_bitstream_buffers ≠ [] ∨ s.free_input_buffers = []) →
      Decode ok s b =
        ({s with queued_bitstream_buffers :=
            s.queued_bitstream_buffers ++ [b]},
         [Action.decodeCall b])) ∧
    (¬(s.current_state_change = .RESETTING ∨
       s.current_state_change = .INITIALIZING ∨
       s.queued_bitstream_buffers ≠ [] ∨ s.free_input_buffers = []) →
     ¬((s.current_state_change = .NO_TRANSITION ∨
        s.current_state_change = .FLUSHING) ∧
       (s.client_state = .Idle ∨ s.client_state = .Executing)) →
      Decode ok s b =
        ((StopOnError s .ILLEGAL_STATE).1,
         Action.decodeCall b :: (StopOnError s .ILLEGAL_STATE).2) ∧
      ∀ h, Action.emptyThisBuffer h ∉ (Decode ok s b).2) := by
  constructor
  · intro h
    unfold Decode
    dsimp only
    rw [if_pos h]
  · intro h1 h2
    have hres : Decode ok s b =
        ((StopOnError s .ILLEGAL_STATE).1,
         Action.decodeCall b :: (StopOnError s .ILLEGAL_STATE).2) := by
      unfold Decode
      dsimp only
      rw [if_neg h1, if_pos h2]
    refine ⟨hres, ?_⟩
    intro h hmem
    rw [hres] at hmem
    simp only [List.mem_cons] at hmem
    rcases hmem with h3 | h3
    · simp at h3
    · exact StopOnError_no_etb _ _ _ h3

/-- Witness for C2: concrete enqueue (during `RESETTING`) and concrete
illegal-state failure (engine `Pause`d with no transition in progress). -/
theorem decode_queues_or_fails_illegal_witness :
    Decode true rstState testBitstream =
      ({rstState with queued_bitstream_buffers :=
          rstState.queued_bitstream_buffers ++ [testBitstream]},
       [Action.decodeCall testBitstream]) ∧
    Decode true pauseState testBitstream =
      ((StopOnError pauseState .ILLEGAL_STATE).1,
       Action.decodeCall testBitstream ::
         (StopOnError pauseState .ILLEGAL_STATE).2) :=
  ⟨(decode_queues_or_fails_illegal true rstState testBitstream).1
      (Or.inl rfl),
   ((decode_queues_or_fails_illegal true pauseState testBitstream).2
      (by decide) (by decide)).1⟩

/-! ### Claim C9 -/

/-- C9: every call to `AssignPictureBuffers` made while the operation state
is `RESETTING`, `DESTROYING` or `ERRORING` returns immediately with no state
change and no action — no pictures registered, no port enable, no error —
whatever the supplied buffer count is. -/
theorem assignPictureBuffers_noop_during_transition (s : AdapterState)
    (buffers : List Int)
    (h : s.current_state_change = .RESETTING ∨
         s.current_state_change = .DESTROYING ∨
         s.current_state_change = .ERRORING) :
    AssignPictureBuffers s buffers = (s, []) := by
  unfold AssignPictureBuffers
  rw [if_pos h]

/-- Witness for C9: a `RESETTING` state with only 7 supplied buffers (the
requested count is 8) is left untouched. -/
theorem assignPictureBuffers_noop_during_transition_witness :
    AssignPictureBuffers {steadyState with current_state_change := .RESETTING}
      [0, 1, 2, 3, 4, 5, 6] =
      ({steadyState with current_state_change := .RESETTING}, []) :=
  assignPictureBuffers_noop_during_transition
    {steadyState with current_state_change := .RESETTING}
    [0, 1, 2, 3, 4, 5, 6] (Or.inl rfl)

/-! ### Claim C10 -/

/-- C10: every profile whose code lies in the H264 range `0..10` — Baseline,
Main, Extended, High, High10, High422, High444 Predictive, Scalable
Baseline/High, Stereo High, Multiview High — passes `Initialize`'s profile
validation (none maps to `OMX_VIDEO_AVCProfileMax`, so none is rejected with
`INVALID_ARGUMENT`), while the statically reported supported-profiles list
contains only H264 Baseline, Main, High and VP8. -/
theorem initialize_accepts_all_h264_profiles :
    (h264RangeProfiles.all fun p =>
      decide (InitializeProfileCheck p ≠ .invalidArgument)) = true ∧
    h264RangeProfiles.map profileCode =
      [0, 1, 2, 3, 4, 5, 6, 7, 8, 9, 10] ∧
    GetSupportedProfiles.map SupportedProfile.profile =
      [.H264PROFILE_BASELINE, .H264PROFILE_MAIN, .H264PROFILE_HIGH,
       .VP8PROFILE_ANY] := by
  decide

/-! ### Claim C3: input-buffer conservation -/

theorem inv_StopOnError (s : AdapterState) (e : VDAError)
    (h : InputBufferInvariant s) :
    InputBufferInvariant (StopOnError s e).1 := by
  unfold StopOnError
  split
  · exact h
  · dsimp only
    split
    · exact h
    · intro _ _ he
      exact absurd rfl he

theorem inv_erroring_vacuous (s : AdapterState) (e : VDAError)
    (hcsc : s.current_state_change ≠ .ERRORING)
    (hcs : ¬(s.client_state = .Invalid ∨ s.client_state = .Max)) :
    InputBufferInvariant (StopOnError s e).1 := by
  rw [StopOnError_sets_erroring s e hcsc hcs]
  intro _ _ he
  exact absurd rfl he

theorem inv_Decode (ok : Bool) (s : AdapterState) (b : BitstreamBuffer)
    (h : InputBufferInvariant s) : InputBufferInvariant (Decode ok s b).1 := by
  unfold Decode
  dsimp only
  split
  · exact h
  · rename_i hq1
    split
    · exact inv_StopOnError s _ h
    · rename_i hok
      rw [not_not] at hok
      have hcs : ¬(s.client_state = .Invalid ∨ s.client_state = .Max) := by
        rcases hok.2 with h2 | h2 <;> simp [h2]
      have hcsc : s.current_state_change ≠ .ERRORING := by
        rcases hok.1 with h1 | h1 <;> simp [h1]
      split
      · exact h
      · rename_i omx rest hfree
        have hlen : (s.free_input_buffers.length : Int) =
            (rest.length : Int) + 1 := by
          rw [hfree]
          simp
        split
        · split
          · intro h1 h2 h3
            have := h h1 h2 h3
            rw [hlen] at this
            dsimp only
            omega
          · dsimp only
            exact inv_erroring_vacuous _ _ hcsc hcs
        · split
          · exact inv_erroring_vacuous _ _ hcsc hcs
          · split
            · intro h1 h2 h3
              have := h h1 h2 h3
              rw [hlen] at this
              dsimp only
              omega
            · dsimp only
              exact inv_erroring_vacuous _ _ hcsc hcs

theorem inv_decodeList (oks : List Bool) (s : AdapterState)
    (bs : List BitstreamBuffer) (h : InputBufferInvariant s) :
    InputBufferInvariant (decodeList oks s bs).1 := by
  induction bs generalizing oks s with
  | nil => exact h
  | cons b bs ih =>
    exact ih oks.tail _ (inv_Decode (oks.headD true) s b h)

theorem inv_DecodeQueuedBitstreamBuffers (oks : List Bool) (s : AdapterState)
    (h : InputBufferInvariant s) :
    InputBufferInvariant (DecodeQueuedBitstreamBuffers oks s).1 := by
  unfold DecodeQueuedBitstreamBuffers
  dsimp only
  split
  · exact h
  · exact inv_decodeList oks _ _ h

theorem inv_EmptyBufferDoneTask (oks : List Bool) (s : AdapterState)
    (buffer : InputHeader) (h : InputBufferInvariant s) :
    InputBufferInvariant (EmptyBufferDoneTask oks s buffer).1 := by
  have hret : ∀ hd : InputHeader, InputBufferInvariant
      {s with free_input_buffers := s.free_input_buffers ++ [hd],
              input_buffers_at_component :=
                s.input_buffers_at_component - 1} := by
    intro hd h1 h2 h3
    have := h h1 h2 h3
    simp only [List.length_append, List.length_cons, List.length_nil]
    push_cast
    omega
  unfold EmptyBufferDoneTask
  split
  · exact hret buffer
  · split
    · exact hret buffer
    · dsimp only
      exact inv_DecodeQueuedBitstreamBuffers oks _ (hret _)

/-- C3: conservation of input buffers.  `AllocateInputBuffers` establishes
`|free_input_buffers| + input_buffers_at_component = input_buffer_count`
(starting from no input headers), and both `Decode` (which takes a free
input and increments the at-component counter, or diverts to `ERRORING` on a
failure path) and `EmptyBufferDoneTask` (which pushes the returned header
and decrements the counter, then drains the queue) preserve the invariant
stating that the sum equals the count whenever the engine is in
`IDLE`/`EXECUTING`/`PAUSED` and the operation state is neither `DESTROYING`
nor `ERRORING`. -/
theorem input_buffer_conservation :
    (∀ s : AdapterState, s.free_input_buffers = [] →
      s.input_buffers_at_component = 0 → 0 ≤ s.input_buffer_count →
      ((AllocateInputBuffers s).free_input_buffers.length : Int) +
        (AllocateInputBuffers s).input_buffers_at_component =
        (AllocateInputBuffers s).input_buffer_count) ∧
    (∀ (ok : Bool) (s : AdapterState) (b : BitstreamBuffer),
      InputBufferInvariant s → InputBufferInvariant (Decode ok s b).1) ∧
    (∀ (oks : List Bool) (s : AdapterState) (buffer : InputHeader),
      InputBufferInvariant s →
      InputBufferInvariant (EmptyBufferDoneTask oks s buffer).1) := by
  refine ⟨?_, inv_Decode, inv_EmptyBufferDoneTask⟩
  intro s hfree hat hcnt
  unfold AllocateInputBuffers
  simp only [hfree, hat, List.nil_append, List.length_replicate]
  rw [Int.toNat_of_nonneg hcnt]
  omega

/-- Witness for C3: establishment from a state with no input headers, and
preservation across a concrete `Decode` and a concrete input return. -/
theorem input_buffer_conservation_witness :
    (((AllocateInputBuffers emptyBufState).free_input_buffers.length : Int) +
      (AllocateInputBuffers emptyBufState).input_buffers_at_component =
      (AllocateInputBuffers emptyBufState).input_buffer_count) ∧
    (((Decode true steadyState testBitstream).1.free_input_buffers.length :
        Int) +
      (Decode true steadyState testBitstream).1.input_buffers_at_component =
      (Decode true steadyState testBitstream).1.input_buffer_count) ∧
    (((EmptyBufferDoneTask [] ebdState
         testInputHeader).1.free_input_buffers.length : Int) +
      (EmptyBufferDoneTask [] ebdState
        testInputHeader).1.input_buffers_at_component =
      (EmptyBufferDoneTask [] ebdState testInputHeader).1.input_buffer_count) :=
  ⟨input_buffer_conservation.1 emptyBufState rfl rfl (by decide),
   input_buffer_conservation.2.1 true steadyState testBitstream
     (fun _ _ _ => by decide) (by decide) (by decide) (by decide),
   input_buffer_conservation.2.2 [] ebdState testInputHeader
     (fun _ _ _ => by decide) (by decide) (by decide) (by decide)⟩

/-! ### Claim C4: bitstream id round-trips through the timestamp channel -/

theorem decode_stamps (ok : Bool) (s : AdapterState) (b : BitstreamBuffer)
    (inh : InputHeader) (hb : ¬(b.id = -1 ∧ b.size = 0))
    (hin : Action.emptyThisBuffer inh ∈ (Decode ok s b).2) :
    inh.nTimeStamp = b.id := by
  by_cases hc1 : (s.current_state_change = .RESETTING ∨
      s.current_state_change = .INITIALIZING ∨
      s.queued_bitstream_buffers ≠ [] ∨ s.free_input_buffers = [])
  · rw [Decode_cond1_eq ok s b hc1] at hin
    simp at hin
  by_cases hc2 : ((s.current_state_change = .NO_TRANSITION ∨
      s.current_state_change = .FLUSHING) ∧
      (s.client_state = .Idle ∨ s.client_state = .Executing))
  · have hfne : s.free_input_buffers ≠ [] := by
      intro hnil
      exact hc1 (Or.inr (Or.inr (Or.inr hnil)))
    obtain ⟨omx, rest, hfree⟩ := List.exists_cons_of_ne_nil hfne
    by_cases hmap : b.mapOk = true
    · rw [Decode_data_eq ok s b omx rest hc1 hc2 hfree hb hmap] at hin
      cases ok
      · rw [if_neg (by simp)] at hin
        rw [List.mem_cons] at hin
        rcases hin with h1 | hin
        · simp at h1
        rw [List.mem_cons] at hin
        rcases hin with h1 | hin
        · injection h1 with h2
          rw [h2]
        · exact absurd hin (StopOnError_no_etb _ _ _)
      · rw [if_pos rfl] at hin
        rw [List.mem_cons] at hin
        rcases hin with h1 | hin
        · simp at h1
        rw [List.mem_singleton] at hin
        injection hin with h2
        rw [h2]
    · rw [Decode_mapfail_eq ok s b omx rest hc1 hc2 hfree hb
        (Bool.not_eq_true b.mapOk ▸ hmap)] at hin
      rw [List.mem_cons] at hin
      rcases hin with h1 | hin
      · simp at h1
      · exact absurd hin (StopOnError_no_etb _ _ _)
  · rw [Decode_illegal_eq ok s b hc1 hc2] at hin
    rw [List.mem_cons] at hin
    rcases hin with h1 | hin
    · simp at h1
    · exact absurd hin (StopOnError_no_etb _ _ _)

theorem fbd_delivers (s : AdapterState) (outb : OutputHeader) (pic : Picture)
    (hd : s.current_state_change ≠ .DESTROYING)
    (he : s.current_state_change ≠ .ERRORING)
    (hr : s.current_state_change ≠ .RESETTING)
    (hfake : outb ∉ s.fake_output_buffers) (heos : outb.eos = false)
    (hp : outb.pAppPrivate = some pic) (hcv : s.client_valid = true) :
    FillBufferDoneTask s outb =
      ({s with output_buffers_at_component :=
          s.output_buffers_at_component - 1},
       [Action.pictureReady
          {pic with bitstream_buffer_id := outb.nTimeStamp}]) := by
  unfold FillBufferDoneTask
  dsimp only
  rw [if_neg (not_or.mpr ⟨hd, he⟩), if_neg (fun hc => hfake hc.2),
      if_neg (by simp [heos]), if_neg hr, hp]
  dsimp only
  rw [if_pos hcv]

/-- C4: the bitstream buffer id round-trips through the engine's timestamp
channel.  A (non-sentinel) `Decode` writes the client's bitstream id into
the input header's `nTimeStamp`; assuming the engine copies the input
timestamp to the producing output header (`hch`), `FillBufferDoneTask`
overwrites the delivered `Picture`'s bitstream-buffer-id field with that
output header's `nTimeStamp`, so the id delivered via `PictureReady` equals
the output header's timestamp, which equals the id the producing `Decode`
stamped. -/
theorem pictureReady_id_roundtrip (ok : Bool) (s : AdapterState)
    (b : BitstreamBuffer) (inh : InputHeader) (s2 : AdapterState)
    (outb : OutputHeader) (pic : Picture)
    (hb : ¬(b.id = -1 ∧ b.size = 0))
    (hin : Action.emptyThisBuffer inh ∈ (Decode ok s b).2)
    (hch : outb.nTimeStamp = inh.nTimeStamp)
    (hd : s2.current_state_change ≠ .DESTROYING)
    (he : s2.current_state_change ≠ .ERRORING)
    (hr : s2.current_state_change ≠ .RESETTING)
    (hfake : outb ∉ s2.fake_output_buffers) (heos : outb.eos = false)
    (hp : outb.pAppPrivate = some pic) (hcv : s2.client_valid = true) :
    (FillBufferDoneTask s2 outb).2 =
      [Action.pictureReady {pic with bitstream_buffer_id := b.id}] ∧
    outb.nTimeStamp = b.id ∧ inh.nTimeStamp = b.id := by
  have h1 : inh.nTimeStamp = b.id := decode_stamps ok s b inh hb hin
  have h2 : outb.nTimeStamp = b.id := by rw [hch, h1]
  refine ⟨?_, h2, h1⟩
  rw [fbd_delivers s2 outb pic hd he hr hfake heos hp hcv]
  rw [h2]

/-- Witness for C4: bitstream id 7 is stamped by a concrete `Decode`,
carried by `testOutputHeader`, and delivered in the `PictureReady` record. -/
theorem pictureReady_id_roundtrip_witness :
    (FillBufferDoneTask steadyState testOutputHeader).2 =
      [Action.pictureReady
        {testPicture with bitstream_buffer_id := testBitstream.id}] ∧
    testOutputHeader.nTimeStamp = testBitstream.id ∧
    testInputHeader.nTimeStamp = testBitstream.id :=
  pictureReady_id_roundtrip true steadyState testBitstream testInputHeader
    steadyState testOutputHeader testPicture (by decide) (by decide) rfl
    (by decide) (by decide) (by decide) (by decide) rfl rfl rfl

/-! ### Claims C7 and C8: queue drains -/

theorem decodeCalls_StopOnError (s : AdapterState) (e : VDAError) :
    decodeCalls (StopOnError s e).2 = [] := by
  unfold decodeCalls
  rw [List.filterMap_eq_nil_iff]
  intro a ha
  rcases StopOnError_trace_sub s e a ha with h | h <;> rw [h]

theorem decodeCalls_cons_other (a : Action) (t : List Action)
    (ha : ∀ b : BitstreamBuffer, a ≠ Action.decodeCall b) :
    decodeCalls (a :: t) = decodeCalls t := by
  unfold decodeCalls
  rw [List.filterMap_cons]
  cases a <;> simp_all

theorem decodeCalls_cons_call (b : BitstreamBuffer) (t : List Action) :
    decodeCalls (Action.decodeCall b :: t) = b :: decodeCalls t := by
  unfold decodeCalls
  rw [List.filterMap_cons]

theorem decodeCalls_Decode (ok : Bool) (s : AdapterState)
    (b : BitstreamBuffer) : decodeCalls (Decode ok s b).2 = [b] := by
  by_cases hc1 : (s.current_state_change = .RESETTING ∨
      s.current_state_change = .INITIALIZING ∨
      s.queued_bitstream_buffers ≠ [] ∨ s.free_input_buffers = [])
  · rw [Decode_cond1_eq ok s b hc1]
    rfl
  by_cases hc2 : ((s.current_state_change = .NO_TRANSITION ∨
      s.current_state_change = .FLUSHING) ∧
      (s.client_state = .Idle ∨ s.client_state = .Executing))
  · have hfne : s.free_input_buffers ≠ [] := by
      intro hnil
      exact hc1 (Or.inr (Or.inr (Or.inr hnil)))
    obtain ⟨omx, rest, hfree⟩ := List.exists_cons_of_ne_nil hfne
    by_cases hsent : (b.id = -1 ∧ b.size = 0)
    · rw [Decode_eos_eq ok s b omx rest hc1 hc2 hfree hsent]
      cases ok
      · rw [if_neg (by simp), decodeCalls_cons_call,
          decodeCalls_cons_other _ _ (by intro c hc; simp at hc),
          decodeCalls_StopOnError]
      · rw [if_pos rfl, decodeCalls_cons_call,
          decodeCalls_cons_other _ _ (by intro c hc; simp at hc)]
        rfl
    · by_cases hmap : b.mapOk = true
      · rw [Decode_data_eq ok s b omx rest hc1 hc2 hfree hsent hmap]
        cases ok
        · rw [if_neg (by simp), decodeCalls_cons_call,
            decodeCalls_cons_other _ _ (by intro c hc; simp at hc),
            decodeCalls_StopOnError]
        · rw [if_pos rfl, decodeCalls_cons_call,
            decodeCalls_cons_other _ _ (by intro c hc; simp at hc)]
          rfl
      · rw [Decode_mapfail_eq ok s b omx rest hc1 hc2 hfree hsent
          (Bool.not_eq_true b.mapOk ▸ hmap), decodeCalls_cons_call,
          decodeCalls_StopOnError]
  · rw [Decode_illegal_eq ok s b hc1 hc2, decodeCalls_cons_call,
      decodeCalls_StopOnError]

theorem decodeCalls_decodeList (oks : List Bool) (s : AdapterState)
    (bs : List BitstreamBuffer) :
    decodeCalls (decodeList oks s bs).2 = bs := by
  induction bs generalizing oks s with
  | nil => rfl
  | cons b bs ih =>
    show decodeCalls ((Decode (oks.headD true) s b).2 ++
      (decodeList oks.tail (Decode (oks.headD true) s b).1 bs).2) = b :: bs
    unfold decodeCalls
    rw [List.filterMap_append]
    have h1 := decodeCalls_Decode (oks.headD true) s b
    have h2 := ih oks.tail (Decode (oks.headD true) s b).1
    unfold decodeCalls at h1 h2
    rw [h1, h2]
    rfl

theorem StopOnError_qpids (s : AdapterState) (e : VDAError) :
    (StopOnError s e).1.queued_picture_buffer_ids =
      s.queued_picture_buffer_ids :=
  (StopOnError_fields s e).2.2.2.2.2.1

theorem Decode_qpids (ok : Bool) (s : AdapterState) (b : BitstreamBuffer) :
    (Decode ok s b).1.queued_picture_buffer_ids =
      s.queued_picture_buffer_ids := by
  unfold Decode
  dsimp only
  split
  · rfl
  · split
    · exact StopOnError_qpids s _
    · split
      · rfl
      · split
        · split
          · rfl
          · exact StopOnError_qpids _ _
        · split
          · exact StopOnError_qpids _ _
          · split
            · rfl
            · exact StopOnError_qpids _ _

theorem decodeList_qpids (oks : List Bool) (s : AdapterState)
    (bs : List BitstreamBuffer) :
    (decodeList oks s bs).1.queued_picture_buffer_ids =
      s.queued_picture_buffer_ids := by
  induction bs generalizing oks s with
  | nil => rfl
  | cons b bs ih =>
    show (decodeList oks.tail (Decode (oks.headD true) s b).1
      bs).1.queued_picture_buffer_ids = _
    rw [ih, Decode_qpids]

theorem DQBB_qpids (oks : List Bool) (s : AdapterState) :
    (DecodeQueuedBitstreamBuffers oks s).1.queued_picture_buffer_ids =
      s.queued_picture_buffer_ids := by
  unfold DecodeQueuedBitstreamBuffers
  dsimp only
  split
  · rfl
  · exact decodeList_qpids _ _ _

theorem decodeCalls_DQBB (oks : List Bool) (s : AdapterState)
    (hd : s.current_state_change ≠ .DESTROYING)
    (he : s.current_state_change ≠ .ERRORING) :
    decodeCalls (DecodeQueuedBitstreamBuffers oks s).2 =
      s.queued_bitstream_buffers := by
  unfold DecodeQueuedBitstreamBuffers
  dsimp only
  rw [if_neg (not_or.mpr ⟨hd, he⟩)]
  exact decodeCalls_decodeList _ _ _

/-- C7: when the engine acknowledges reaching `EXECUTING` while the
operation state is `RESETTING`, the adapter first clears the operation state
(to `NONE`), then re-issues every queued bitstream buffer via `Decode` in
FIFO order (the `decodeCall` markers of the drain trace are exactly the
queued list, in order), then re-issues every queued picture id via
`ReusePictureBuffer`, and only after both drains notifies the client that
the reset is done. -/
theorem reset_drains_then_notifies (oks : List Bool) (freeOk : Bool)
    (s : AdapterState) (hcsc : s.current_state_change = .RESETTING)
    (hcv : s.client_valid = true) :
    ∃ s1 t1,
      DecodeQueuedBitstreamBuffers oks
        {s with client_state := .Executing,
                current_state_change := .NO_TRANSITION} = (s1, t1) ∧
      DispatchStateReached oks freeOk s .Executing =
        ({s1 with queued_picture_buffer_ids := []},
         t1 ++ s.queued_picture_buffer_ids.map Action.reusePicture ++
           [Action.notifyResetDone]) ∧
      decodeCalls t1 = s.queued_bitstream_buffers := by
  refine ⟨(DecodeQueuedBitstreamBuffers oks
      {s with client_state := .Executing,
              current_state_change := .NO_TRANSITION}).1,
    (DecodeQueuedBitstreamBuffers oks
      {s with client_state := .Executing,
              current_state_change := .NO_TRANSITION}).2, rfl, ?_, ?_⟩
  · unfold DispatchStateReached
    simp only [hcsc]
    unfold OnReachedExecutingInResetting
    dsimp only
    rw [if_neg (by simp [hcv])]
    rw [DQBB_qpids]
  · exact decodeCalls_DQBB oks _ (by simp) (by simp)

/-- Witness for C7: a reset completion with one queued bitstream buffer and
one queued picture id drains both in order and then notifies. -/
theorem reset_drains_then_notifies_witness :
    ∃ s1 t1,
      DecodeQueuedBitstreamBuffers [true]
        { rstQueuedState with
          client_state := .Executing,
          current_state_change := .NO_TRANSITION } = (s1, t1) ∧
      DispatchStateReached [true] true rstQueuedState .Executing =
        ({s1 with queued_picture_buffer_ids := []},
         t1 ++ rstQueuedState.queued_picture_buffer_ids.map
             Action.reusePicture ++
           [Action.notifyResetDone]) ∧
      decodeCalls t1 = rstQueuedState.queued_bitstream_buffers :=
  reset_drains_then_notifies [true] true rstQueuedState rfl rfl

/-- C8: for every input header the engine returns, the header goes back onto
the free-input FIFO and the at-component counter is decremented; with the
EOS flag set the client is not notified (empty trace); otherwise the client
(still routed, not tearing down) receives `NotifyEndOfBitstreamBuffer` with
the id stored in the header's binding, the binding is detached from the
returned header, and the queued-bitstream list is then drained in order. -/
theorem input_return_bookkeeping (oks : List Bool) (s : AdapterState)
    (buffer : InputHeader) :
    (buffer.eos = true →
      EmptyBufferDoneTask oks s buffer =
        ({s with free_input_buffers := s.free_input_buffers ++ [buffer],
                 input_buffers_at_component :=
                   s.input_buffers_at_component - 1}, [])) ∧
    (∀ d : SharedMemoryAndId, buffer.eos = false →
      buffer.pAppPrivate = some d → s.client_valid = true →
      s.current_state_change ≠ .DESTROYING →
      s.current_state_change ≠ .ERRORING →
      ∃ s2 t2,
        DecodeQueuedBitstreamBuffers oks
          { s with
            free_input_buffers :=
              s.free_input_buffers ++ [{buffer with pAppPrivate := none}],
            input_buffers_at_component :=
              s.input_buffers_at_component - 1 } = (s2, t2) ∧
        EmptyBufferDoneTask oks s buffer =
          (s2, Action.notifyEndOfBitstreamBuffer d.id :: t2) ∧
        decodeCalls t2 = s.queued_bitstream_buffers) := by
  constructor
  · intro heos
    unfold EmptyBufferDoneTask
    rw [if_pos heos]
  · intro d heos hp hcv hd he
    refine ⟨(DecodeQueuedBitstreamBuffers oks
        { s with
          free_input_buffers :=
            s.free_input_buffers ++ [{buffer with pAppPrivate := none}],
          input_buffers_at_component :=
            s.input_buffers_at_component - 1 }).1,
      (DecodeQueuedBitstreamBuffers oks
        { s with
          free_input_buffers :=
            s.free_input_buffers ++ [{buffer with pAppPrivate := none}],
          input_buffers_at_component :=
            s.input_buffers_at_component - 1 }).2, rfl, ?_, ?_⟩
    · unfold EmptyBufferDoneTask
      rw [if_neg (by simp [heos]), hp]
      dsimp only
      rw [hcv]
      rfl
    · exact decodeCalls_DQBB oks _ hd he

/-- Witness for C8: a returned EOS header only goes back to the FIFO (no
notification); a returned data header notifies id 7 and drains the queue. -/
theorem input_return_bookkeeping_witness :
    EmptyBufferDoneTask [] ebdState flushEosHeader =
      ({ebdState with
          free_input_buffers := ebdState.free_input_buffers ++ [flushEosHeader],
          input_buffers_at_component :=
            ebdState.input_buffers_at_component - 1}, []) ∧
    (∃ s2 t2,
      DecodeQueuedBitstreamBuffers []
        { ebdState with
          free_input_buffers :=
            ebdState.free_input_buffers ++
              [{testInputHeader with pAppPrivate := none}],
          input_buffers_at_component :=
            ebdState.input_buffers_at_component - 1 } = (s2, t2) ∧
      EmptyBufferDoneTask [] ebdState testInputHeader =
        (s2, Action.notifyEndOfBitstreamBuffer 7 :: t2) ∧
      decodeCalls t2 = ebdState.queued_bitstream_buffers) :=
  ⟨(input_return_bookkeeping [] ebdState flushEosHeader).1 rfl,
   (input_return_bookkeeping [] ebdState testInputHeader).2
     { id := 7 } rfl rfl rfl (by decide) (by decide)⟩

/-! ### Claims C5 and C6: the client notification route

The workhorse is `Sane s t s'`: a transition from `s` with trace `t` to `s'`
never notifies a dropped client and spends at most the remaining error
budget.  It composes sequentially, every modelled event satisfies it, and
`NotifyError`-at-most-once (C5) and silence-after-`Destroy` (C6) follow. -/

theorem clientNotifs_append (t1 t2 : List Action) :
    clientNotifs (t1 ++ t2) = clientNotifs t1 ++ clientNotifs t2 := by
  unfold clientNotifs
  rw [List.filter_append]

theorem countError_append (t1 t2 : List Action) :
    countError (t1 ++ t2) = countError t1 + countError t2 := by
  unfold countError
  rw [List.filter_append, List.length_append]

theorem countError_eq_zero_of_no_notifs (t : List Action)
    (h : clientNotifs t = []) : countError t = 0 := by
  unfold clientNotifs at h
  unfold countError
  rw [List.filter_eq_nil_iff] at h
  rw [List.length_eq_zero, List.filter_eq_nil_iff]
  intro a ha hcnt
  have := h a ha
  cases a <;> simp_all [Action.isClientNotif, Action.isNotifyError]

theorem errBudget_le_one (s : AdapterState) : errBudget s ≤ 1 := by
  unfold errBudget
  split <;> simp

theorem sane_comp {s s1 s2 : AdapterState} {t1 t2 : List Action}
    (h1 : Sane s t1 s1) (h2 : Sane s1 t2 s2) : Sane s (t1 ++ t2) s2 := by
  obtain ⟨ha1, hb1⟩ := h1
  obtain ⟨ha2, hb2⟩ := h2
  constructor
  · intro hcv
    obtain ⟨hn1, hv1⟩ := ha1 hcv
    obtain ⟨hn2, hv2⟩ := ha2 hv1
    rw [clientNotifs_append, hn1, hn2]
    exact ⟨rfl, hv2⟩
  · rw [countError_append]
    omega

theorem sane_silent {s s' : AdapterState} (t : List Action)
    (hval : s'.client_valid = s.client_valid)
    (ht : clientNotifs t = []) : Sane s t s' := by
  constructor
  · intro hcv
    exact ⟨ht, hval.trans hcv⟩
  · rw [countError_eq_zero_of_no_notifs t ht]
    unfold errBudget
    rw [hval]
    omega

theorem sane_refl_trace (s : AdapterState) (t : List Action)
    (ht : clientNotifs t = []) : Sane s t s :=
  sane_silent t rfl ht

theorem sane_cons_nonnotif {s s' : AdapterState} {t : List Action}
    (a : Action) (ha : a.isClientNotif = false) (h : Sane s t s') :
    Sane s (a :: t) s' := by
  have : a :: t = [a] ++ t := rfl
  rw [this]
  exact sane_comp (sane_refl_trace s [a] (by simp [clientNotifs, ha])) h

theorem sane_congr {s0 s s' : AdapterState} {t : List Action}
    (h : Sane s t s') (hcv : s0.client_valid = s.client_valid) :
    Sane s0 t s' := by
  obtain ⟨ha, hb⟩ := h
  constructor
  · intro h0
    exact ha (hcv.symm.trans h0)
  · unfold errBudget at hb ⊢
    rw [hcv]
    exact hb

theorem sane_guarded_notif {s : AdapterState} (s1 : AdapterState) (a : Action)
    (hae : a.isNotifyError = false)
    (hval : s1.client_valid = s.client_valid) :
    Sane s (if s1.client_valid = true then [a] else []) s1 := by
  by_cases hcv : s1.client_valid = true
  · rw [if_pos hcv]
    constructor
    · intro h0
      rw [hval, h0] at hcv
      exact absurd hcv (by simp)
    · have : countError [a] = 0 := by
        unfold countError
        rw [List.filter_eq_nil_iff.mpr (by simpa using hae)]
        rfl
      rw [this]
      unfold errBudget
      rw [hval]
      omega
  · rw [if_neg hcv]
    exact sane_silent [] (by rw [hval]) rfl

theorem sane_StopOnError (s : AdapterState) (e : VDAError) :
    Sane s (StopOnError s e).2 (StopOnError s e).1 := by
  unfold StopOnError
  split
  · exact sane_refl_trace s [] rfl
  · dsimp only
    split
    · constructor
      · intro hcv
        rw [if_neg (by simp [hcv])]
        exact ⟨rfl, rfl⟩
      · by_cases hcv : s.client_valid = true
        · by_cases hib : s.init_begun = true
          · rw [if_pos ⟨hcv, hib⟩]
            unfold countError errBudget
            simp [hcv, Action.isNotifyError]
          · rw [if_neg (by simp [hib])]
            unfold countError errBudget
            simp [hcv]
        · rw [if_neg (by simp [hcv])]
          unfold countError errBudget
          simp [hcv]
    · constructor
      · intro hcv
        rw [if_neg (by simp [hcv])]
        refine ⟨?_, rfl⟩
        simp [clientNotifs, Action.isClientNotif]
      · by_cases hcv : s.client_valid = true
        · by_cases hib : s.init_begun = true
          · rw [if_pos ⟨hcv, hib⟩, countError_append]
            unfold countError errBudget
            simp [hcv, Action.isNotifyError]
          · rw [if_neg (by simp [hib]), countError_append]
            unfold countError errBudget
            simp [hcv, Action.isNotifyError]
        · rw [if_neg (by simp [hcv]), countError_append]
          unfold countError errBudget
          simp [hcv, Action.isNotifyError]

theorem clientNotifs_eq_nil (t : List Action)
    (h : ∀ x ∈ t, x.isClientNotif = false) : clientNotifs t = [] := by
  unfold clientNotifs
  rw [List.filter_eq_nil_iff]
  intro a ha
  simp [h a ha]

theorem sane_Decode (ok : Bool) (s : AdapterState) (b : BitstreamBuffer) :
    Sane s (Decode ok s b).2 (Decode ok s b).1 := by
  by_cases hc1 : (s.current_state_change = .RESETTING ∨
      s.current_state_change = .INITIALIZING ∨
      s.queued_bitstream_buffers ≠ [] ∨ s.free_input_buffers = [])
  · rw [Decode_cond1_eq ok s b hc1]
    exact sane_silent _ rfl rfl
  by_cases hc2 : ((s.current_state_change = .NO_TRANSITION ∨
      s.current_state_change = .FLUSHING) ∧
      (s.client_state = .Idle ∨ s.client_state = .Executing))
  · have hfne : s.free_input_buffers ≠ [] := by
      intro hnil
      exact hc1 (Or.inr (Or.inr (Or.inr hnil)))
    obtain ⟨omx, rest, hfree⟩ := List.exists_cons_of_ne_nil hfne
    by_cases hsent : (b.id = -1 ∧ b.size = 0)
    · rw [Decode_eos_eq ok s b omx rest hc1 hc2 hfree hsent]
      cases ok
      · rw [if_neg (by simp)]
        exact sane_cons_nonnotif _ rfl (sane_cons_nonnotif _ rfl
          (sane_congr (sane_StopOnError _ _) rfl))
      · rw [if_pos rfl]
        exact sane_silent _ rfl rfl
    · by_cases hmap : b.mapOk = true
      · rw [Decode_data_eq ok s b omx rest hc1 hc2 hfree hsent hmap]
        cases ok
        · rw [if_neg (by simp)]
          exact sane_cons_nonnotif _ rfl (sane_cons_nonnotif _ rfl
            (sane_congr (sane_StopOnError _ _) rfl))
        · rw [if_pos rfl]
          exact sane_silent _ rfl rfl
      · rw [Decode_mapfail_eq ok s b omx rest hc1 hc2 hfree hsent
          (Bool.not_eq_true b.mapOk ▸ hmap)]
        exact sane_cons_nonnotif _ rfl
          (sane_congr (sane_StopOnError _ _) rfl)
  · rw [Decode_illegal_eq ok s b hc1 hc2]
    exact sane_cons_nonnotif _ rfl (sane_StopOnError s _)

theorem sane_decodeList (oks : List Bool) (s : AdapterState)
    (bs : List BitstreamBuffer) :
    Sane s (decodeList oks s bs).2 (decodeList oks s bs).1 := by
  induction bs generalizing oks s with
  | nil => exact sane_refl_trace s [] rfl
  | cons b bs ih =>
    have hstep : decodeList oks s (b :: bs) =
        ((decodeList oks.tail (Decode (oks.headD true) s b).1 bs).1,
         (Decode (oks.headD true) s b).2 ++
           (decodeList oks.tail (Decode (oks.headD true) s b).1 bs).2) := rfl
    rw [hstep]
    exact sane_comp (sane_Decode _ _ _) (ih _ _)

theorem sane_DQBB (oks : List Bool) (s : AdapterState) :
    Sane s (DecodeQueuedBitstreamBuffers oks s).2
      (DecodeQueuedBitstreamBuffers oks s).1 := by
  unfold DecodeQueuedBitstreamBuffers
  dsimp only
  split
  · exact sane_silent [] rfl rfl
  · exact sane_congr (sane_decodeList oks _ _) rfl

theorem sane_EmptyBufferDoneTask (oks : List Bool) (s : AdapterState)
    (buffer : InputHeader) :
    Sane s (EmptyBufferDoneTask oks s buffer).2
      (EmptyBufferDoneTask oks s buffer).1 := by
  unfold EmptyBufferDoneTask
  by_cases heos : buffer.eos = true
  · rw [if_pos heos]
    exact sane_silent [] rfl rfl
  · rw [if_neg heos]
    rcases hp : buffer.pAppPrivate with _ | d
    · dsimp only
      exact sane_silent [] rfl rfl
    · dsimp only
      refine sane_comp ?_ (sane_DQBB oks _)
      exact sane_guarded_notif _ _ rfl rfl

theorem sane_FillBufferDoneTask (s : AdapterState) (buffer : OutputHeader) :
    Sane s (FillBufferDoneTask s buffer).2 (FillBufferDoneTask s buffer).1 := by
  unfold FillBufferDoneTask
  dsimp only
  by_cases h1 : (s.current_state_change = .DESTROYING ∨
      s.current_state_change = .ERRORING)
  · rw [if_pos h1]
    exact sane_silent [] rfl rfl
  · rw [if_neg h1]
    by_cases h2 : (s.fake_output_buffers ≠ [] ∧
        buffer ∈ s.fake_output_buffers)
    · rw [if_pos h2]
      exact sane_silent _ rfl rfl
    · rw [if_neg h2]
      by_cases h3 : buffer.eos = true
      · rw [if_pos h3]
        unfold OnReachedEOSInFlushing
        dsimp only
        refine sane_comp (sane_guarded_notif _ _ rfl rfl)
          (sane_silent _ rfl rfl)
      · rw [if_neg h3]
        by_cases h4 : s.current_state_change = .RESETTING
        · rw [if_pos h4]
          exact sane_silent [] rfl rfl
        · rw [if_neg h4]
          rcases hp : buffer.pAppPrivate with _ | pic
          · dsimp only
            exact sane_silent [] rfl rfl
          · dsimp only
            exact sane_guarded_notif _ _ rfl rfl

theorem BTS_state (s : AdapterState) (ns : OMXState) :
    (BeginTransitionToState s ns).1 = s := by
  unfold BeginTransitionToState
  split <;> rfl

theorem BTS_no_notifs (s : AdapterState) (ns : OMXState) :
    clientNotifs (BeginTransitionToState s ns).2 = [] := by
  unfold BeginTransitionToState
  split <;> rfl

theorem sane_after_BTS (s0 s : AdapterState) (ns : OMXState)
    (hval : s.client_valid = s0.client_valid) :
    Sane s0 (BeginTransitionToState s ns).2
      (BeginTransitionToState s ns).1 := by
  refine sane_silent _ ?_ (BTS_no_notifs s ns)
  rw [BTS_state]
  exact hval

theorem sane_FreeOMXBuffers (freeOk : Bool) (s : AdapterState) :
    Sane s (FreeOMXBuffers freeOk s).2 (FreeOMXBuffers freeOk s).1 := by
  unfold FreeOMXBuffers
  dsimp only
  have hmain : ∀ b ∈ (s.free_input_buffers.map
        (fun _ => Action.freeInputBuffer) ++
      (s.pictures.flatMap (fun p => Action.freeOutputBuffer ::
        (if s.client_valid = true then [Action.dismissPictureBuffer p.1]
         else []))) ++
      s.fake_output_buffers.map (fun _ => Action.freeOutputBuffer) ++
      (if s.client_valid = true then
         s.queued_picture_buffer_ids.map Action.dismissPictureBuffer
       else [])),
      b.isNotifyError = false ∧
      (s.client_valid = false → b.isClientNotif = false) := by
    intro b hb
    simp only [List.mem_append, List.mem_map, List.mem_flatMap,
      List.mem_cons] at hb
    rcases hb with ((hb | hb) | hb) | hb
    · obtain ⟨_, _, rfl⟩ := hb
      exact ⟨rfl, fun _ => rfl⟩
    · obtain ⟨p, _, hb⟩ := hb
      rcases hb with rfl | hb
      · exact ⟨rfl, fun _ => rfl⟩
      · by_cases hcv : s.client_valid = true
        · rw [if_pos hcv] at hb
          rw [List.mem_singleton] at hb
          subst hb
          exact ⟨rfl, fun h0 => absurd (h0 ▸ hcv) (by simp)⟩
        · rw [if_neg hcv] at hb
          simp at hb
    · obtain ⟨_, _, rfl⟩ := hb
      exact ⟨rfl, fun _ => rfl⟩
    · by_cases hcv : s.client_valid = true
      · rw [if_pos hcv] at hb
        rw [List.mem_map] at hb
        obtain ⟨i, _, rfl⟩ := hb
        exact ⟨rfl, fun h0 => absurd (h0 ▸ hcv) (by simp)⟩
      · rw [if_neg hcv] at hb
        simp at hb
  have hsane1 : Sane s (s.free_input_buffers.map
        (fun _ => Action.freeInputBuffer) ++
      (s.pictures.flatMap (fun p => Action.freeOutputBuffer ::
        (if s.client_valid = true then [Action.dismissPictureBuffer p.1]
         else []))) ++
      s.fake_output_buffers.map (fun _ => Action.freeOutputBuffer) ++
      (if s.client_valid = true then
         s.queued_picture_buffer_ids.map Action.dismissPictureBuffer
       else []))
      {s with free_input_buffers := [], pictures := [],
              fake_output_buffers := [], queued_picture_buffer_ids := []} := by
    constructor
    · intro hcv
      exact ⟨clientNotifs_eq_nil _ (fun x hx => (hmain x hx).2 hcv), hcv⟩
    · have hz : countError (s.free_input_buffers.map
          (fun _ => Action.freeInputBuffer) ++
        (s.pictures.flatMap (fun p => Action.freeOutputBuffer ::
          (if s.client_valid = true then [Action.dismissPictureBuffer p.1]
           else []))) ++
        s.fake_output_buffers.map (fun _ => Action.freeOutputBuffer) ++
        (if s.client_valid = true then
           s.queued_picture_buffer_ids.map Action.dismissPictureBuffer
         else [])) = 0 := by
        unfold countError
        rw [List.length_eq_zero, List.filter_eq_nil_iff]
        intro a ha hcnt
        rw [(hmain a ha).1] at hcnt
        exact absurd hcnt (by simp)
      rw [hz, Nat.zero_add]
      exact Nat.le_of_eq rfl
  split
  · exact hsane1
  · exact sane_comp hsane1 (sane_StopOnError _ _)

theorem sane_invalidating {s s' : AdapterState} (t : List Action)
    (ht : clientNotifs t = []) (h : s'.client_valid = false) : Sane s t s' := by
  constructor
  · intro _
    exact ⟨ht, h⟩
  · rw [countError_eq_zero_of_no_notifs t ht, Nat.zero_add]
    unfold errBudget
    rw [h]
    simp

theorem countError_reuses (l : List Int) :
    countError (l.map Action.reusePicture) = 0 := by
  unfold countError
  rw [List.length_eq_zero, List.filter_eq_nil_iff]
  intro a ha
  rw [List.mem_map] at ha
  obtain ⟨i, _, rfl⟩ := ha
  simp [Action.isNotifyError]

theorem sane_OnReachedExecutingInResetting (oks : List Bool)
    (s : AdapterState) :
    Sane s (OnReachedExecutingInResetting oks s).2
      (OnReachedExecutingInResetting oks s).1 := by
  unfold OnReachedExecutingInResetting
  dsimp only
  by_cases hcv : s.client_valid = true
  · rw [if_neg (by simp [hcv])]
    dsimp only
    constructor
    · intro h0
      rw [h0] at hcv
      exact absurd hcv (by simp)
    · rw [countError_append, countError_append, countError_reuses]
      have h2 := (sane_DQBB oks
        { s with
          client_state := OMXState.Executing,
          current_state_change := CurrentStateChange.NO_TRANSITION }).2
      have h4 : countError [Action.notifyResetDone] = 0 := rfl
      have h6 : errBudget
          { s with
            client_state := OMXState.Executing,
            current_state_change := CurrentStateChange.NO_TRANSITION } =
          errBudget s := rfl
      rw [h6] at h2
      have h5 : errBudget
          { (DecodeQueuedBitstreamBuffers oks
              { s with
                client_state := OMXState.Executing,
                current_state_change := CurrentStateChange.NO_TRANSITION }).1
            with queued_picture_buffer_ids := [] } =
          errBudget (DecodeQueuedBitstreamBuffers oks
            { s with
              client_state := OMXState.Executing,
              current_state_change := CurrentStateChange.NO_TRANSITION }).1 :=
        rfl
      rw [h4, h5]
      omega
  · rw [if_pos (by simp [hcv])]
    exact sane_silent [] rfl rfl

theorem sane_OnReachedExecutingInInitializing (s : AdapterState) :
    Sane s (OnReachedExecutingInInitializing s).2
      (OnReachedExecutingInInitializing s).1 := by
  unfold OnReachedExecutingInInitializing
  dsimp only
  refine sane_comp ?_ (sane_guarded_notif _ _ rfl rfl)
  refine sane_silent _ rfl (clientNotifs_eq_nil _ ?_)
  intro x hx
  rw [List.mem_map] at hx
  obtain ⟨_, _, rfl⟩ := hx
  rfl

theorem sane_Destroy (s : AdapterState) :
    Sane s (Destroy s).2 (Destroy s).1 := by
  unfold Destroy
  dsimp only
  split
  · exact sane_invalidating [] rfl rfl
  · split
    · exact sane_invalidating [] rfl rfl
    · split
      · exact sane_invalidating _ rfl rfl
      · refine sane_invalidating _ (BTS_no_notifs _ _) ?_
        rw [BTS_state]

theorem sane_QueuePictureBuffer (s : AdapterState) (pid : Int) :
    Sane s (QueuePictureBuffer s pid).2 (QueuePictureBuffer s pid).1 := by
  unfold QueuePictureBuffer
  by_cases h1 : s.current_state_change = .RESETTING
  · rw [if_pos h1]
    exact sane_silent [] rfl rfl
  · rw [if_neg h1]
    by_cases h2 : CanFillBuffer s = true
    · rw [if_neg (by simp [h2])]
      split
      · exact sane_StopOnError s _
      · exact sane_silent _ rfl rfl
    · rw [if_pos (by simp [h2])]
      exact sane_silent [] rfl rfl

theorem sane_AssignPictureBuffers (s : AdapterState) (buffers : List Int) :
    Sane s (AssignPictureBuffers s buffers).2
      (AssignPictureBuffers s buffers).1 := by
  unfold AssignPictureBuffers
  split
  · exact sane_silent [] rfl rfl
  · split
    · exact sane_StopOnError s _
    · split
      · exact sane_StopOnError s _
      · exact sane_silent _ rfl rfl

theorem sane_OnOutputPortEnabled (s : AdapterState) :
    Sane s (OnOutputPortEnabled s).2 (OnOutputPortEnabled s).1 := by
  unfold OnOutputPortEnabled
  split
  · exact sane_silent [] rfl rfl
  · split
    · exact sane_StopOnError s _
    · dsimp only
      refine sane_silent _ rfl (clientNotifs_eq_nil _ ?_)
      intro x hx
      rw [List.mem_map] at hx
      obtain ⟨_, _, rfl⟩ := hx
      rfl

theorem sane_DispatchStateReached (oks : List Bool) (freeOk : Bool)
    (s : AdapterState) (reached : OMXState) :
    Sane s (DispatchStateReached oks freeOk s reached).2
      (DispatchStateReached oks freeOk s reached).1 := by
  unfold DispatchStateReached
  cases hc : s.current_state_change <;> cases hr : reached <;> dsimp only <;>
    first
      | exact sane_refl_trace s [] rfl
      | exact sane_after_BTS s _ _ rfl
      | exact sane_OnReachedExecutingInInitializing s
      | exact sane_OnReachedExecutingInResetting oks s
      | exact sane_silent _ rfl rfl
      | exact sane_comp (sane_after_BTS s _ _ rfl)
          (sane_FreeOMXBuffers freeOk _)
      | exact sane_comp (sane_congr (sane_FreeOMXBuffers freeOk _) rfl)
          (sane_silent _ rfl rfl)

theorem sane_step (op : Op) (s : AdapterState) :
    Sane s (step op s).2 (step op s).1 := by
  cases op with
  | decode ok b => exact sane_Decode ok s b
  | assignPictureBuffers bufs => exact sane_AssignPictureBuffers s bufs
  | reusePicture id => exact sane_silent _ rfl rfl
  | queuePicture id => exact sane_QueuePictureBuffer s id
  | flush ok => exact sane_congr (sane_Decode ok _ _) rfl
  | reset => exact sane_after_BTS s _ _ rfl
  | destroy => exact sane_Destroy s
  | stopOnError e => exact sane_StopOnError s e
  | emptyBufferDone oks h => exact sane_EmptyBufferDoneTask oks s h
  | fillBufferDone h => exact sane_FillBufferDoneTask s h
  | stateReached oks freeOk st => exact sane_DispatchStateReached oks freeOk s st
  | portDisabled => exact sane_guarded_notif _ _ rfl rfl
  | portEnabled => exact sane_OnOutputPortEnabled s
  | flushCmdComplete isInput =>
    show Sane s (OnFlushCommandComplete s isInput).2
      (OnFlushCommandComplete s isInput).1
    unfold OnFlushCommandComplete
    split
    · exact sane_silent [] rfl rfl
    · split
      · exact sane_silent _ rfl rfl
      · exact sane_after_BTS s _ _ rfl
  | eventError =>
    show Sane s (OnEventError s).2 (OnEventError s).1
    unfold OnEventError
    split
    · exact sane_StopOnError s _
    · exact sane_silent [] rfl rfl
  | portSettingsChanged => exact sane_silent _ rfl rfl
  | bufferFlag => exact sane_silent [] rfl rfl

theorem sane_run (ops : List Op) (s : AdapterState) :
    Sane s (run ops s).2 (run ops s).1 := by
  induction ops generalizing s with
  | nil => exact sane_refl_trace s [] rfl
  | cons op ops ih =>
    have hstep : run (op :: ops) s =
        ((run ops (step op s).1).1,
         (step op s).2 ++ (run ops (step op s).1).2) := rfl
    rw [hstep]
    exact sane_comp (sane_step op s) (ih _)

theorem StopOnError_csc_of_erroring (s : AdapterState) (e : VDAError)
    (h : s.current_state_change = .ERRORING) :
    (StopOnError s e).1.current_state_change = .ERRORING := by
  rw [StopOnError_erroring_noop s e h]
  exact h

theorem FreeOMX_csc (freeOk : Bool) (s : AdapterState)
    (h : s.current_state_change = .ERRORING) :
    (FreeOMXBuffers freeOk s).1.current_state_change = .ERRORING := by
  unfold FreeOMXBuffers
  dsimp only
  split
  · exact h
  · exact StopOnError_csc_of_erroring _ _ h

theorem erroring_step (op : Op) (s : AdapterState)
    (hop : opPreservesErroring op = true)
    (h : s.current_state_change = .ERRORING) :
    (step op s).1.current_state_change = .ERRORING := by
  cases op with
  | decode ok b =>
    show (Decode ok s b).1.current_state_change = _
    by_cases hc1 : (s.current_state_change = .RESETTING ∨
        s.current_state_change = .INITIALIZING ∨
        s.queued_bitstream_buffers ≠ [] ∨ s.free_input_buffers = [])
    · rw [Decode_cond1_eq ok s b hc1]
      exact h
    · rw [Decode_illegal_eq ok s b hc1 (by simp [h]),
        StopOnError_erroring_noop s _ h]
      exact h
  | assignPictureBuffers bufs =>
    show (AssignPictureBuffers s bufs).1.current_state_change = _
    unfold AssignPictureBuffers
    rw [if_pos (Or.inr (Or.inr h))]
    exact h
  | reusePicture id => exact h
  | queuePicture id =>
    show (QueuePictureBuffer s id).1.current_state_change = _
    unfold QueuePictureBuffer
    rw [if_neg (by simp [h]), if_pos (by simp [CanFillBuffer, h])]
    exact h
  | flush ok => simp [opPreservesErroring] at hop
  | reset => simp [opPreservesErroring] at hop
  | destroy =>
    show (Destroy s).1.current_state_change = _
    unfold Destroy
    dsimp only
    rw [if_pos (Or.inl h)]
    exact h
  | stopOnError e =>
    show (StopOnError s e).1.current_state_change = _
    rw [StopOnError_erroring_noop s e h]
    exact h
  | emptyBufferDone oks hdr =>
    show (EmptyBufferDoneTask oks s hdr).1.current_state_change = _
    unfold EmptyBufferDoneTask
    by_cases heos : hdr.eos = true
    · rw [if_pos heos]
      exact h
    · rw [if_neg heos]
      split
      · exact h
      · dsimp only
        unfold DecodeQueuedBitstreamBuffers
        dsimp only
        rw [if_pos (Or.inr h)]
        exact h
  | fillBufferDone hdr =>
    show (FillBufferDoneTask s hdr).1.current_state_change = _
    unfold FillBufferDoneTask
    dsimp only
    rw [if_pos (Or.inr h)]
    exact h
  | stateReached oks freeOk st =>
    show (DispatchStateReached oks freeOk s st).1.current_state_change = _
    unfold DispatchStateReached
    rw [h]
    dsimp only
    cases st
    · exact h
    · exact h
    · exact h
    · exact h
    · show (OnReachedInvalidInErroring freeOk s).1.current_state_change = _
      unfold OnReachedInvalidInErroring ShutdownComponent
      dsimp only
      exact FreeOMX_csc freeOk _ h
    · exact h
  | portDisabled => exact h
  | portEnabled =>
    show (OnOutputPortEnabled s).1.current_state_change = _
    unfold OnOutputPortEnabled
    rw [if_neg (by simp [h]), if_pos (by simp [CanFillBuffer, h]),
      StopOnError_erroring_noop s _ h]
    exact h
  | flushCmdComplete isInput =>
    show (OnFlushCommandComplete s isInput).1.current_state_change = _
    unfold OnFlushCommandComplete
    rw [if_pos (Or.inr h)]
    exact h
  | eventError =>
    show (OnEventError s).1.current_state_change = _
    unfold OnEventError
    rw [if_neg (by simp [h])]
    exact h
  | portSettingsChanged => exact h
  | bufferFlag => exact h

theorem Destroy_silent (s : AdapterState) :
    clientNotifs (Destroy s).2 = [] ∧
    (Destroy s).1.client_valid = false := by
  unfold Destroy
  dsimp only
  split
  · exact ⟨rfl, rfl⟩
  · split
    · exact ⟨rfl, rfl⟩
    · split
      · exact ⟨rfl, rfl⟩
      · exact ⟨BTS_no_notifs _ _, by rw [BTS_state]⟩

/-! ### Claim C5 -/

/-- C5: over any sequence of modelled events, `NotifyError` is delivered to
the client at most once; a `StopOnError` call made while the operation state
is `ERRORING` is a no-op (state unchanged, no notification, no engine
command); and every event other than the precondition-violating client calls
`Flush`/`Reset` leaves the `ERRORING` state in place, so every `StopOnError`
after the one that set `ERRORING` stays a no-op. -/
theorem notifyError_at_most_once :
    (∀ (ops : List Op) (s : AdapterState), countError (run ops s).2 ≤ 1) ∧
    (∀ (s : AdapterState) (e : VDAError),
      s.current_state_change = .ERRORING → StopOnError s e = (s, [])) ∧
    (∀ (ops : List Op) (s : AdapterState),
      s.current_state_change = .ERRORING →
      ops.all opPreservesErroring = true →
      (run ops s).1.current_state_change = .ERRORING) := by
  refine ⟨?_, StopOnError_erroring_noop, ?_⟩
  · intro ops s
    have h := (sane_run ops s).2
    have h1 := errBudget_le_one s
    omega
  · intro ops s h hall
    induction ops generalizing s with
    | nil => exact h
    | cons op ops ih =>
      rw [List.all_cons, Bool.and_eq_true] at hall
      show (run ops (step op s).1).1.current_state_change = _
      exact ih _ (erroring_step op s hall.1 h) hall.2

/-- Witness for C5: a double error stop on the steady state notifies at most
once; a `StopOnError` on an erroring state is exactly a no-op; the erroring
state survives a further error stop and an engine error event. -/
theorem notifyError_at_most_once_witness :
    countError (run [Op.stopOnError .PLATFORM_FAILURE,
      Op.stopOnError .PLATFORM_FAILURE] steadyState).2 ≤ 1 ∧
    StopOnError erroringState .PLATFORM_FAILURE = (erroringState, []) ∧
    (run [Op.stopOnError .PLATFORM_FAILURE, Op.eventError]
      erroringState).1.current_state_change = .ERRORING :=
  ⟨notifyError_at_most_once.1 [Op.stopOnError .PLATFORM_FAILURE,
      Op.stopOnError .PLATFORM_FAILURE] steadyState,
   notifyError_at_most_once.2.1 erroringState .PLATFORM_FAILURE rfl,
   notifyError_at_most_once.2.2 [Op.stopOnError .PLATFORM_FAILURE,
      Op.eventError] erroringState rfl (by decide)⟩

/-! ### Claim C6 -/

/-- C6: `Destroy` invalidates the client notification route before doing
anything else, so it emits no client notification itself and no modelled
event that runs after it ever delivers one; in particular `NotifyFlushDone`
is never delivered after a `Destroy`, including a `Destroy` issued while the
operation state is `FLUSHING` (the quantification over `s` covers every such
state), even though teardown continues. -/
theorem destroy_silences_client (s : AdapterState) (ops : List Op) :
    clientNotifs (Destroy s).2 = [] ∧
    clientNotifs (run ops (Destroy s).1).2 = [] ∧
    Action.notifyFlushDone ∉ (Destroy s).2 ∧
    Action.notifyFlushDone ∉ (run ops (Destroy s).1).2 := by
  obtain ⟨h1, h2⟩ := Destroy_silent s
  have h3 := ((sane_run ops (Destroy s).1).1 h2).1
  refine ⟨h1, h3, ?_, ?_⟩
  · intro hmem
    have hfil : Action.notifyFlushDone ∈
        List.filter Action.isClientNotif (Destroy s).2 :=
      List.mem_filter.mpr ⟨hmem, rfl⟩
    unfold clientNotifs at h1
    rw [h1] at hfil
    simp at hfil
  · intro hmem
    have hfil : Action.notifyFlushDone ∈
        List.filter Action.isClientNotif (run ops (Destroy s).1).2 :=
      List.mem_filter.mpr ⟨hmem, rfl⟩
    unfold clientNotifs at h3
    rw [h3] at hfil
    simp at hfil

end OmxVda
